import Mathlib

set_option maxHeartbeats 1000000

/-!
Formal model of the fly-voice-agent call orchestrator.

The development shallowly embeds the per-call conversation orchestrator of the
repository (the Twilio stream handler, the Cartesia speech-synthesis gateway,
the LLM router with provider fallback, and the tool executor) as executable
Lean functions over explicit session state and effect traces, and proves the
behavioural properties stated in the specification.

Conventions used throughout:
* JavaScript objects holding string-keyed values are modelled as association
  lists; property assignment keeps the position of an existing key, exactly as
  JavaScript object assignment does.
* Asynchronous results of external collaborators (HTTP fetches, LLM backends,
  WebSocket synthesis) are supplied through environment records; a thrown
  exception is an `Except.error` carrying the error message or error record.
* Wall-clock timestamps that only decorate log entries are omitted; timestamps
  that the code computes with (audio playback timing) are explicit naturals in
  milliseconds.
* Mutations of the per-call closure variables are modelled as explicit state
  passing; externally visible actions (WebSocket sends, metric increments,
  timer waits) are collected in effect lists in execution order.
-/

namespace VoiceAgent

/-- JSON-style values, as produced by parsing tool-call argument strings.
JavaScript distinguishes a property explicitly set to null from an absent
property; `JValue.null` is the former. -/
inductive JValue where
  | null : JValue
  | str (s : String) : JValue
  | bool (b : Bool) : JValue
  | num (n : Int) : JValue
deriving DecidableEq, Repr

/-- A model-requested structured action, from `response.toolCalls` entries:
`toolCall.id`, `toolCall.function.name` and the JSON-parsed
`toolCall.function.arguments` object (modelled already parsed; parsed JSON
objects have unique keys, association lists are the general shape). -/
structure ToolCall where
  id : String
  name : String
  args : List (String × JValue)
deriving DecidableEq, Repr

/-- Result object of `executeToolCall` in the stream handler; the three shapes
the source returns. The source stringifies this with JSON.stringify before
placing it into a transcript entry; the structured value is kept here. -/
inductive ToolResult where
  | updated (keys : List String)
  | callEnding (summary : Option JValue)
  | unknownTool
deriving DecidableEq, Repr

/-- Model-facing conversation entry (the `messages` array of the handler):
system, user and assistant entries, the assistant tool-call bookkeeping entry
(`role: assistant, content: null, tool_calls`), and tool-result entries
(`role: tool, tool_call_id, name, content`). ISO timestamp decoration is
omitted. -/
inductive ChatMsg where
  | system (content : String)
  | user (content : String)
  | assistant (content : String)
  | assistantToolCalls (toolCalls : List ToolCall)
  | toolResult (toolCallId : String) (name : String) (result : ToolResult)
deriving DecidableEq, Repr

/-- Display-transcript entry (the `transcript` array of the handler):
speaker tag and text; the ISO timestamp decoration is omitted. -/
structure TranscriptEntry where
  speaker : String
  text : String
deriving DecidableEq, Repr

/-- Last-occurrence lookup in a raw JSON key/value list: when a parsed JSON
text carries a duplicate key, the later occurrence wins, which this mirrors. -/
def lookupArg : List (String × JValue) → String → Option JValue
  | [], _ => none
  | (k, v) :: rest, f =>
    match lookupArg rest f with
    | some w => some w
    | none => if k = f then some v else none

/-- JavaScript property assignment `obj[k] = v` on an object modelled as an
association list: overwrite in place if the key exists, append otherwise. -/
def setKey : List (String × JValue) → String → JValue → List (String × JValue)
  | [], k, v => [(k, v)]
  | (k0, v0) :: rest, k, v =>
    if k0 = k then (k0, v) :: rest else (k0, v0) :: setKey rest k v

/-- `Object.assign(obj, args)`: copy every key/value pair of `args` onto
`obj`, in order. -/
def objAssign (obj : List (String × JValue)) (args : List (String × JValue)) :
    List (String × JValue) :=
  args.foldl (fun acc kv => setKey acc kv.1 kv.2) obj

/-- The `collectedData` object as initialized in `handleTwilioStream`:
a fixed set of named fields, each explicitly null (unset). -/
def initialCollectedData : List (String × JValue) :=
  [("serviceType", JValue.null), ("propertyType", JValue.null), ("issue", JValue.null),
   ("started", JValue.null), ("emergency", JValue.null), ("contactPhone", JValue.null),
   ("callbackTime", JValue.null), ("notes", JValue.null), ("callerName", JValue.null),
   ("callerEmail", JValue.null)]

/-- Externally visible actions of the call session, in execution order. -/
inductive RouterEffect where
  | groqCall (messages : List ChatMsg) (tools : Option (List String))
  | geminiCall (messages : List ChatMsg) (tools : Option (List String))
  | track (provider : String) (cost : Rat) (latency : Nat) (isFallback : Bool)
deriving DecidableEq, Repr

/-- Session-level effects emitted by the stream handler. -/
inductive Effect where
  | setSpeaking (b : Bool)
  | ringback
  | callStarted
  | closeWs
  | scheduleClose (delayMs : Nat)
  | llm (re : RouterEffect)
  | refreshTts
  | queueSpeak (text : String)
  | wait (ms : Nat)
deriving DecidableEq, Repr

/-- `executeToolCall` of the stream handler: `update_service_request` merges
the argument object into the collected data via `Object.assign` and reports
the updated keys; `end_call_with_summary` schedules the WebSocket close after
5000 ms and reports the summary argument; any other name yields an explicit
failure result. -/
def executeToolCall (tc : ToolCall) (cd : List (String × JValue)) :
    ToolResult × List (String × JValue) × List Effect :=
  if tc.name = "update_service_request" then
    (ToolResult.updated (tc.args.map (fun kv => kv.1)), objAssign cd tc.args, [])
  else if tc.name = "end_call_with_summary" then
    (ToolResult.callEnding (lookupArg tc.args ("summary")), cd, [Effect.scheduleClose 5000])
  else
    (ToolResult.unknownTool, cd, [])

/-- Runs a whole call worth of `update_service_request` actions through
`executeToolCall`, starting from the freshly initialized collected data. -/
def runUpdateActions (acts : List (List (String × JValue))) : List (String × JValue) :=
  acts.foldl
    (fun cd args => (executeToolCall { id := "tc", name := "update_service_request", args := args } cd).2.1)
    initialCollectedData

/-- The value supplied for field `f` by the last update action mentioning it,
scanning the concatenation of all action argument lists. -/
def lastSupplied (acts : List (List (String × JValue))) (f : String) : Option JValue :=
  lookupArg acts.flatten f

/-- A named collected-data field counts as set when it holds a non-null value;
fields start as explicit null, which is the unset sentinel the rest of the
pipeline (webhook payload, prompts) treats as missing data. -/
def fieldIsSet (cd : List (String × JValue)) (f : String) : Bool :=
  match List.lookup f cd with
  | some JValue.null => false
  | some _ => true
  | none => false

/-! ### The Cartesia single-flight TTS queue

`queueSpeakText` appends the request to `ttsQueue` and starts `processQueue`
unless it is already running; `processQueue` repeatedly shifts the queue head,
awaits its synthesis and settles its promise. Between those awaits the
JavaScript event loop runs user code, so the externally observable protocol
is the following step machine: a `submit` event is a `queueSpeakText` call, a
`finish` event is the settlement of the currently awaited synthesis. -/

/-- Queue-related fields of a `CartesiaService` instance. -/
structure QState where
  ttsQueue : List Nat
  isProcessingQueue : Bool
deriving DecidableEq, Repr

/-- External events driving the queue. -/
inductive QEvent where
  | submit (id : Nat)
  | finish
deriving DecidableEq, Repr

/-- Observable actions of the queue: dispatching a queued request into
`speakTextWithRetry`, and the settlement of the in-flight request. -/
inductive QAction where
  | dispatch (id : Nat)
  | settled
deriving DecidableEq, Repr

/-- One step of the queue protocol. On `submit`, the request is pushed and
`processQueue` is invoked: if the processing loop is already active nothing
else happens, otherwise the loop starts, shifts the queue head and dispatches
it. On `finish`, the active loop settles the current request and either
shifts and dispatches the next queued request or exits, clearing the
processing flag. A `finish` with no active loop is a no-op (such an event
cannot arise from the code; the step function is total regardless). -/
def queueStep (s : QState) (e : QEvent) : QState × List QAction :=
  match e with
  | QEvent.submit id =>
    let q := s.ttsQueue ++ [id]
    if s.isProcessingQueue then
      ({ ttsQueue := q, isProcessingQueue := true }, [])
    else
      match q with
      | [] => ({ ttsQueue := [], isProcessingQueue := false }, [])
      | h :: rest => ({ ttsQueue := rest, isProcessingQueue := true }, [QAction.dispatch h])
  | QEvent.finish =>
    if s.isProcessingQueue then
      match s.ttsQueue with
      | [] => ({ ttsQueue := [], isProcessingQueue := false }, [QAction.settled])
      | h :: rest =>
        ({ ttsQueue := rest, isProcessingQueue := true },
         [QAction.settled, QAction.dispatch h])
    else (s, [])

/-- Queue state of a freshly constructed `CartesiaService`. -/
def initialQState : QState := { ttsQueue := [], isProcessingQueue := false }

/-- Runs a sequence of queue events, collecting all actions in order. -/
def runQueue : QState → List QEvent → QState × List QAction
  | s, [] => (s, [])
  | s, e :: es =>
    let r1 := queueStep s e
    let r2 := runQueue r1.1 es
    (r2.1, r1.2 ++ r2.2)

/-- Request identifiers in submission order. -/
def submittedIds (es : List QEvent) : List Nat :=
  es.filterMap (fun e => match e with
    | QEvent.submit id => some id
    | QEvent.finish => none)

/-- Request identifiers in dispatch order. -/
def dispatchedIds (as : List QAction) : List Nat :=
  as.filterMap (fun a => match a with
    | QAction.dispatch id => some id
    | QAction.settled => none)

/-- Scans an action trace, tracking how many requests are in flight; returns
the final count, or `none` as soon as a dispatch happens while a request is
already in flight or a settlement happens with none in flight. A trace is
single-flight exactly when this scan succeeds starting from zero. -/
def flightAfter : Nat → List QAction → Option Nat
  | k, [] => some k
  | k, QAction.dispatch _ :: rest => if k = 0 then flightAfter 1 rest else none
  | k, QAction.settled :: rest => if k = 1 then flightAfter 0 rest else none

/-! ### Substring search

Helper used by both the LLM router (matching transient error markers inside
error strings, `errorString.includes(marker)`) and the synthesis retry logic
(`error.message.includes` of the timeout marker). -/

/-- Whether `pat` is an initial segment of `s`. -/
def listStartsWith : List Char → List Char → Bool
  | _, [] => true
  | [], _ :: _ => false
  | a :: s, b :: p => a == b && listStartsWith s p

/-- Whether `pat` occurs contiguously anywhere inside `s`; the JavaScript
`String.prototype.includes`. -/
def listHasSub : List Char → List Char → Bool
  | s, pat =>
    if listStartsWith s pat then true
    else
      match s with
      | [] => false
      | _ :: s2 => listHasSub s2 pat

/-- `s.includes(pat)` on strings. -/
def strIncludes (s pat : String) : Bool := listHasSub s.data pat.data

/-! ### Speech synthesis gateway (cartesia.js, direct-WebSocket version) -/

/-- Audio duration information resolved by `speakText` on the `done` message:
total mulaw bytes received, the total audio duration in milliseconds
(`Math.ceil((totalBytes / 8000) * 1000)`, one byte per 8 kHz sample, taken
here in exact arithmetic), and the elapsed milliseconds from the first
received chunk to the completion message. -/
structure TtsResult where
  totalBytes : Nat
  audioMs : Nat
  streamingDurationMs : Nat
deriving DecidableEq, Repr

/-- Internal accumulation state of one `speakText` promise: chunk counter,
byte total, and the arrival time of the first chunk. -/
structure TtsProgress where
  chunkCount : Nat
  totalBytes : Nat
  firstChunkTime : Option Nat
deriving DecidableEq, Repr

/-- Fresh accumulation state at request send time. -/
def initialTtsProgress : TtsProgress :=
  { chunkCount := 0, totalBytes := 0, firstChunkTime := none }

/-- WebSocket messages a `speakText` request can observe, each tagged with its
arrival time in milliseconds since the request was sent. -/
inductive TtsMsg where
  | chunk (bytes : Nat)
  | done
  | errMsg (e : String)
deriving DecidableEq, Repr

/-- The rejection message of the 10-second hard timeout (the text excerpt the
source appends is kept abstractly as the requested utterance). -/
def ttsTimeoutMessage (text : String) : String :=
  "TTS timeout: No audio chunks received after 10000ms. Text: " ++ text

/-- One `speakText` request processed against a timed message trace. The hard
timeout rejects at 10000 ms only while no chunk has arrived (its callback
checks the chunk counter and otherwise does nothing); a `done` message
resolves with the accumulated duration information; an `error` message
rejects. A trace that ends without settlement after chunks were received
leaves the promise pending (`none`), which mirrors the source: the hard
timeout never fires once a chunk has been seen. -/
def speakTextRun (text : String) : List (Nat × TtsMsg) → TtsProgress →
    Option (Except String TtsResult)
  | [], st =>
    if st.chunkCount = 0 then some (Except.error (ttsTimeoutMessage text)) else none
  | (t, m) :: rest, st =>
    if st.chunkCount = 0 ∧ t > 10000 then some (Except.error (ttsTimeoutMessage text))
    else
      match m with
      | TtsMsg.chunk b =>
        speakTextRun text rest
          { chunkCount := st.chunkCount + 1, totalBytes := st.totalBytes + b,
            firstChunkTime :=
              match st.firstChunkTime with
              | some f => some f
              | none => some t }
      | TtsMsg.done =>
        some (Except.ok
          { totalBytes := st.totalBytes,
            audioMs := (st.totalBytes * 1000 + 7999) / 8000,
            streamingDurationMs :=
              match st.firstChunkTime with
              | some f => t - f
              | none => 0 })
      | TtsMsg.errMsg e => some (Except.error ("Cartesia error: " ++ e))

/-- The marker `speakTextWithRetry` looks for inside a rejection message to
classify it as a synthesis timeout. -/
def ttsTimeoutMarker : String := "TTS timeout"

/-- `error.message.includes` of the timeout marker. -/
def isTtsTimeout (msg : String) : Bool := strIncludes msg ttsTimeoutMarker

/-- Outcomes of the external operations `speakTextWithRetry` performs: the
result of the n-th `speakText` attempt and of the reconnect
(disconnect + connect) following the n-th failed attempt. -/
structure RetryEnv where
  attempt : Nat → Except String TtsResult
  reconnect : Nat → Except String Unit

/-- Observable actions of `speakTextWithRetry`. -/
inductive RetryEffect where
  | speakCall (attempt : Nat)
  | reconnectCall
deriving DecidableEq, Repr

/-- The retry loop of `speakTextWithRetry`: attempt `speakText`; on an error,
retry (after a reconnect) only when attempts remain and the message contains
the timeout marker; a reconnect failure propagates instead of retrying; any
other error propagates immediately. -/
def speakTextWithRetryGo (env : RetryEnv) (maxRetries : Nat) (attempt : Nat) :
    Except String TtsResult × List RetryEffect :=
  match env.attempt attempt with
  | Except.ok r => (Except.ok r, [RetryEffect.speakCall attempt])
  | Except.error e =>
    if h : attempt < maxRetries ∧ isTtsTimeout e = true then
      match env.reconnect attempt with
      | Except.error re =>
        (Except.error re, [RetryEffect.speakCall attempt, RetryEffect.reconnectCall])
      | Except.ok _ =>
        let rec2 := speakTextWithRetryGo env maxRetries (attempt + 1)
        (rec2.1, RetryEffect.speakCall attempt :: RetryEffect.reconnectCall :: rec2.2)
    else (Except.error e, [RetryEffect.speakCall attempt])
termination_by maxRetries - attempt
decreasing_by omega

/-- `speakTextWithRetry` as used by the queue: the default of one retry. -/
def speakTextWithRetry (env : RetryEnv) : Except String TtsResult × List RetryEffect :=
  speakTextWithRetryGo env 1 0

/-- `needsRefresh`: whether the connection has been idle longer than the
270000 ms threshold (4.5 minutes, ahead of the upstream 5-minute drop). -/
def needsRefresh (lastActivity now : Nat) : Bool := now - lastActivity > 270000

/-! ### LLM router (llm-router.js) with groq/gemini provider adapters -/

/-- Token usage as reported by a provider response. -/
structure ProviderUsage where
  promptTokens : Nat
  completionTokens : Nat
  totalTokens : Nat
deriving DecidableEq, Repr

/-- Normalized result of `groq.chat`: content, tool calls and usage. -/
structure ProviderResult where
  content : Option String
  toolCalls : List ToolCall
  usage : ProviderUsage
deriving DecidableEq, Repr

/-- Raw pieces of a `gemini.chat` response before its adapter normalizes
them: candidate text, the extracted function call (if any), and usage. -/
structure GeminiRaw where
  text : String
  functionCall : Option (String × List (String × JValue))
  usage : ProviderUsage
deriving DecidableEq, Repr

/-- Error object thrown by a provider SDK; `message`, and the optional
`code` and `status` fields the router folds into its error string (numeric
statuses arrive stringified by the JavaScript concatenation). -/
structure RouterError where
  message : String
  code : Option String
  status : Option String
deriving DecidableEq, Repr

/-- Response shape the router hands back to the session. For gemini
responses the spread of the adapter result carries a `functionCall` field and
no `toolCalls` field, so `toolCalls` is empty there. -/
structure RouterResponse where
  content : Option String
  toolCalls : List ToolCall
  provider : String
  latency : Nat
  cost : Rat
  tokens : Nat
  isFallback : Bool
deriving DecidableEq, Repr

/-- `groq.calculateCost`: 0.00000059 dollars per prompt token plus
0.00000079 dollars per completion token, in exact arithmetic. -/
def groqCalculateCost (u : ProviderUsage) : Rat :=
  (u.promptTokens : Rat) * (59 / 100000000) + (u.completionTokens : Rat) * (79 / 100000000)

/-- `gemini.calculateCost`: 0.0000001 dollars per prompt token plus
0.0000004 dollars per completion token, in exact arithmetic. -/
def geminiCalculateCost (u : ProviderUsage) : Rat :=
  (u.promptTokens : Rat) * (1 / 10000000) + (u.completionTokens : Rat) * (4 / 10000000)

/-- Option-valued string with the JavaScript `|| default` semantics: an
absent value and the empty string both fall back to the default. -/
def jsOrStr (v : Option String) (d : String) : String :=
  match v with
  | some s => if s = "" then d else s
  | none => d

/-- Outcomes of the provider backends for one router invocation, plus the
measured latencies the adapters record. -/
structure RouterEnv where
  groqResult : Except RouterError ProviderResult
  geminiResult : Except RouterError GeminiRaw
  groqLatency : Nat
  geminiLatency : Nat

/-- The list of transient markers `_shouldFallback` searches for. -/
def fallbackErrors : List String :=
  ["rate_limit", "service_unavailable", "overloaded", "tool_use_failed",
   "429", "503", "500", "400"]

/-- The lowercased concatenation `message + code + status` that
`_shouldFallback` searches. -/
def errorString (e : RouterError) : String :=
  String.map Char.toLower
    (e.message ++ " " ++ jsOrStr e.code ("") ++ " " ++ jsOrStr e.status (""))

/-- `_shouldFallback`: whether any transient marker occurs in the error
string. Note `jsOrStr v ("")` coincides with the JavaScript `v || empty`. -/
def shouldFallback (e : RouterError) : Bool :=
  fallbackErrors.any (fun err => strIncludes (errorString e) err)

/-- `_callGroq`: on success, normalize, compute cost, track metrics (never a
fallback) and tag the provider; on failure, log and rethrow. -/
def callGroq (env : RouterEnv) (messages : List ChatMsg) (tools : Option (List String)) :
    Except RouterError RouterResponse × List RouterEffect :=
  match env.groqResult with
  | Except.ok r =>
    let cost := groqCalculateCost r.usage
    (Except.ok
      { content := r.content, toolCalls := r.toolCalls, provider := "groq",
        latency := env.groqLatency, cost := cost, tokens := r.usage.totalTokens,
        isFallback := false },
     [RouterEffect.groqCall messages tools,
      RouterEffect.track ("groq") cost env.groqLatency false])
  | Except.error e => (Except.error e, [RouterEffect.groqCall messages tools])

/-- The router response built from a gemini adapter result: the adapter blanks
the content when a function call is present; the spread leaves `toolCalls`
empty for gemini responses. -/
def geminiRouterResponse (g : GeminiRaw) (latency : Nat) (isFallback : Bool) : RouterResponse :=
  { content := if g.functionCall.isSome then none else some g.text,
    toolCalls := [],
    provider := "gemini",
    latency := latency,
    cost := geminiCalculateCost g.usage,
    tokens := g.usage.totalTokens,
    isFallback := isFallback }

/-- `_callGemini`: on success, normalize, compute cost, track metrics with the
supplied fallback flag and tag the provider; on failure, log and rethrow. -/
def callGemini (env : RouterEnv) (messages : List ChatMsg) (tools : Option (List String))
    (isFallback : Bool) : Except RouterError RouterResponse × List RouterEffect :=
  match env.geminiResult with
  | Except.ok g =>
    (Except.ok (geminiRouterResponse g env.geminiLatency isFallback),
     [RouterEffect.geminiCall messages tools,
      RouterEffect.track ("gemini") (geminiCalculateCost g.usage) env.geminiLatency isFallback])
  | Except.error e => (Except.error e, [RouterEffect.geminiCall messages tools])

/-- `LLMRouter.chat`: a forced provider goes straight to that backend; in auto
mode groq is attempted first and, only when the error is classified
transient, gemini is retried once with the identical messages and tools and
the fallback flag set; a non-transient groq error propagates. -/
def routerChat (provider : String) (env : RouterEnv) (messages : List ChatMsg)
    (tools : Option (List String)) : Except RouterError RouterResponse × List RouterEffect :=
  if provider = "groq" then callGroq env messages tools
  else if provider = "gemini" then callGemini env messages tools false
  else
    match callGroq env messages tools with
    | (Except.ok r, effs) => (Except.ok r, effs)
    | (Except.error e, effs) =>
      if shouldFallback e then
        let r2 := callGemini env messages tools true
        (r2.1, effs ++ r2.2)
      else (Except.error e, effs)

/-- Response shape of the follow-up call after tool execution. -/
structure FollowUpResponse where
  content : Option String
  provider : String
  latency : Nat
  cost : Rat
  tokens : Nat
deriving DecidableEq, Repr

/-- `LLMRouter.chatWithToolResults`, which always uses the groq backend via
`groq.chatWithToolResults`; that request is built without any `tools`
parameter, so the offered action set of this second call is empty. -/
def chatWithToolResults (env : RouterEnv) (messages : List ChatMsg) :
    Except RouterError FollowUpResponse × List RouterEffect :=
  match env.groqResult with
  | Except.ok r =>
    let cost := groqCalculateCost r.usage
    (Except.ok
      { content := r.content, provider := "groq", latency := env.groqLatency,
        cost := cost, tokens := r.usage.totalTokens },
     [RouterEffect.groqCall messages none,
      RouterEffect.track ("groq") cost env.groqLatency false])
  | Except.error e => (Except.error e, [RouterEffect.groqCall messages none])

/-! ### The mis-heard term correction pass (correctPlumbingTerms)

Every pattern in the correction table consists solely of word characters
(ASCII letters), so a match of `\b pattern \b` under the `gi` flags is
exactly a maximal run of word characters that equals the pattern up to ASCII
case. The global replace therefore rewrites each such maximal run to the
replacement word and leaves everything else unchanged, which is how one pass
is embedded here: split the text into maximal runs of characters of equal
word-character class, rewrite the matching runs, rejoin. The conditional
`regex.test` guard of the source only skips a replace that would be the
identity anyway. -/

/-- JavaScript regex word characters (the `\w` class without the `u` flag):
ASCII letters, digits and underscore. -/
def isWordChar (c : Char) : Bool := c.isAlpha || c.isDigit || c == '_'

/-- Splits a character list into its maximal runs of equal word-character
class. Adjacent characters stay in one run exactly when `isWordChar` agrees
on them, so `\b` boundaries fall precisely between runs. -/
def wordRuns (l : List Char) : List (List Char) :=
  match l with
  | [] => []
  | a :: rest =>
    (a :: rest.takeWhile (fun c => isWordChar c == isWordChar a)) ::
      wordRuns (rest.dropWhile (fun c => isWordChar c == isWordChar a))
termination_by l.length
decreasing_by
  simp only [List.length_cons]
  exact Nat.lt_succ_of_le (List.Sublist.length_le (List.dropWhile_sublist _))

/-- One global, whole-word, case-insensitive replace
`text.replace(new RegExp(backslash-b + wrong + backslash-b, gi), right)`:
every maximal word run equal to `wrong` up to ASCII lowercasing becomes
`right`. -/
def replaceWordAll (wrong right : String) (l : List Char) : List Char :=
  ((wordRuns l).map
    (fun run => if run.map Char.toLower = wrong.data then right.data else run)).flatten

/-- The correction table of `correctPlumbingTerms`, in source order. -/
def corrections : List (String × String) :=
  [("quogged", "clogged"), ("quarked", "clogged"), ("corked", "clogged"),
   ("clocked", "clogged"), ("cloged", "clogged"), ("clagged", "clogged"),
   ("cogged", "clogged"), ("quoged", "clogged"), ("clogt", "clogged"),
   ("leek", "leak"), ("leke", "leak"),
   ("drane", "drain"), ("drayne", "drain"),
   ("fossit", "faucet"), ("fausit", "faucet"), ("fosset", "faucet"),
   ("toylet", "toilet"), ("tolet", "toilet"),
   ("plumer", "plumber"), ("plummer", "plumber")]

/-- `correctPlumbingTerms`: the correction passes applied successively over
the text, one whole-word case-insensitive global replace per table entry. -/
def correctPlumbingTerms (text : String) : String :=
  String.mk (corrections.foldl (fun t p => replaceWordAll p.1 p.2 t) text.data)

/-! ### stripFunctionCalls

The source removes every occurrence of
`<function=[^>]+>` followed lazily by anything up to `</function>` and trims
the result. The scanner below removes, left to right, each segment starting
at an occurrence of the opening tag and ending at the first following close
tag, keeping any text where the full pattern does not match. -/

/-- The literal opening-tag head the pattern starts with. -/
def openTagHead : List Char := ("<function=").data

/-- The literal closing tag. -/
def closeTag : List Char := ("</function>").data

/-- Drops characters up to and including the first occurrence of `pat`;
`none` when `pat` does not occur. -/
def dropUntilAfter (pat : List Char) : List Char → Option (List Char)
  | [] => none
  | a :: rest =>
    if listStartsWith (a :: rest) pat then some (List.drop pat.length (a :: rest))
    else dropUntilAfter pat rest

/-- Skips to just past the first `>` character; `none` when there is none. -/
def skipToGt : List Char → Option (List Char)
  | [] => none
  | c :: rest => if c = '>' then some rest else skipToGt rest

/-- Consumes one full `<function=[^>]+> ... </function>` match from the head
of the list, returning the remainder; `none` when the pattern does not match
here. -/
def consumeFunTag (l : List Char) : Option (List Char) :=
  if listStartsWith l openTagHead then
    match List.drop openTagHead.length l with
    | [] => none
    | c :: rest =>
      if c = '>' then none
      else
        match skipToGt (c :: rest) with
        | none => none
        | some l2 => dropUntilAfter closeTag l2
  else none

/-- Fuelled scanner over the character list; the fuel is the list length,
which suffices since every step consumes at least one character. -/
def stripFunCallsGo : Nat → List Char → List Char
  | 0, l => l
  | _ + 1, [] => []
  | fuel + 1, a :: rest =>
    match consumeFunTag (a :: rest) with
    | some l2 => stripFunCallsGo fuel l2
    | none => a :: stripFunCallsGo fuel rest

/-- `stripFunctionCalls`: remove leaked inline action-invocation markup, then
trim surrounding whitespace. -/
def stripFunctionCalls (text : String) : String :=
  (String.mk (stripFunCallsGo text.data.length text.data)).trim

/-! ### Call session state and Turn-Out (sendAIResponse) -/

/-- Per-call mutable state of `handleTwilioStream`: the half-duplex flag, the
model-facing message list, the display transcript, the collected data record
and the metrics accumulators. -/
structure SessionState where
  isSpeaking : Bool
  messages : List ChatMsg
  transcript : List TranscriptEntry
  collectedData : List (String × JValue)
  llmCalls : Nat
  totalLatency : Nat
  totalCost : Rat
  primaryProvider : Option String
deriving DecidableEq, Repr

/-- Fresh state at WebSocket accept time. -/
def initialSessionState : SessionState :=
  { isSpeaking := false, messages := [], transcript := [],
    collectedData := initialCollectedData, llmCalls := 0, totalLatency := 0,
    totalCost := 0, primaryProvider := none }

/-- External outcomes one `sendAIResponse` invocation can observe: the idle
clock (last TTS activity and current time, for `needsRefresh`), the outcome
of the disconnect/connect refresh pair, and the outcome of the queued
synthesis request. -/
structure TtsEnv where
  lastActivity : Nat
  now : Nat
  reconnectResult : Except String Unit
  ttsOutcome : Except String TtsResult

/-- The fixed 300 ms playback safety margin of `sendAIResponse`. -/
def playbackBuffer : Nat := 300

/-- The body of the `try` block of `sendAIResponse`, after the speaking flag
has been raised: refresh the connection when idle too long (a refresh failure
throws), append the display transcript entry, submit the utterance to the
single-flight queue, and on success wait the remaining playback duration
`max(0, audioMs - streamingDurationMs)` (truncated subtraction) plus the
safety margin. -/
def sendAIResponseCore (env : TtsEnv) (text : String) (s1 : SessionState) :
    Except String Unit × SessionState × List Effect :=
  let s2 := { s1 with transcript := s1.transcript ++ [{ speaker := "ai", text := text }] }
  match env.ttsOutcome with
  | Except.error e => (Except.error e, s2, [Effect.queueSpeak text])
  | Except.ok r =>
    let playbackWaitMs := (r.audioMs - r.streamingDurationMs) + playbackBuffer
    (Except.ok (), s2, [Effect.queueSpeak text, Effect.wait playbackWaitMs])

/-- The `try`/`catch` portion of `sendAIResponse` (the `catch` only logs and
rethrows, so it is the identity on state and effects). -/
def sendAIResponseBody (env : TtsEnv) (text : String) (s : SessionState) :
    Except String Unit × SessionState × List Effect :=
  let s1 := { s with isSpeaking := true }
  if needsRefresh env.lastActivity env.now then
    match env.reconnectResult with
    | Except.error e => (Except.error e, s1, [Effect.setSpeaking true, Effect.refreshTts])
    | Except.ok _ =>
      let r := sendAIResponseCore env text s1
      (r.1, r.2.1, [Effect.setSpeaking true, Effect.refreshTts] ++ r.2.2)
  else
    let r := sendAIResponseCore env text s1
    (r.1, r.2.1, [Effect.setSpeaking true] ++ r.2.2)

/-- `sendAIResponse`: the body under the `finally` clause, which clears the
half-duplex flag on every path, completion and exception alike. -/
def sendAIResponse (env : TtsEnv) (text : String) (s : SessionState) :
    Except String Unit × SessionState × List Effect :=
  let r := sendAIResponseBody env text s
  (r.1, { r.2.1 with isSpeaking := false }, r.2.2 ++ [Effect.setSpeaking false])

/-! ### Turn-In (onTranscript) -/

/-- The action set handed to the reasoning call for non-demo calls, by name.
The registry entries are the service-request update and the call-ending
summary action; only the names participate in the properties proved here, the
JSON schemas of the tools are irrelevant to them. -/
def TOOLS : List String := ["update_service_request", "end_call_with_summary"]

/-- JavaScript truthiness of an optional string: null, undefined and the
empty string are falsy. -/
def jsTruthy : Option String → Bool
  | some s => !(s == "")
  | none => false

/-- The fixed spoken fallback phrase of the Turn-In error handler. -/
def errorResponseText : String :=
  "Sorry, I didn\x27t catch that. Could you repeat what you said?"

/-- External outcomes one `onTranscript` invocation can observe: the router
provider mode, the backend outcomes for the initial reasoning call and for
the follow-up call, whether the call is a demo call (demo calls offer no
tools), and the synthesis environments for the main reply and for the
fallback phrase. -/
structure TurnEnv where
  provider : String
  chatEnv : RouterEnv
  followEnv : RouterEnv
  isDemo : Bool
  mainTts : TtsEnv
  fallbackTts : TtsEnv

/-- The silent tool-execution loop of `onTranscript` (the `for` loop over
`response.toolCalls`): each requested action is executed against the
evolving collected data and its result is appended to the model-facing
messages as a tool entry, in order. -/
def execToolLoop (tcs : List ToolCall) (s : SessionState) : SessionState × List Effect :=
  match tcs with
  | [] => (s, [])
  | tc :: rest =>
    let r := executeToolCall tc s.collectedData
    let s1 := { s with
      collectedData := r.2.1,
      messages := s.messages ++ [ChatMsg.toolResult tc.id tc.name r.1] }
    let rec2 := execToolLoop rest s1
    (rec2.1, r.2.2 ++ rec2.2)

/-- The tool-result messages the execution loop appends, as a function of
the requested actions and the collected data they start from. -/
def toolResultMsgs (tcs : List ToolCall) (cd : List (String × JValue)) : List ChatMsg :=
  match tcs with
  | [] => []
  | tc :: rest =>
    let r := executeToolCall tc cd
    ChatMsg.toolResult tc.id tc.name r.1 :: toolResultMsgs rest r.2.1

/-- The `catch` block of `onTranscript`: push the fixed fallback phrase as an
assistant message and speak it; an error thrown while speaking it is only
logged. -/
def turnErrorFallback (env : TurnEnv) (s : SessionState) : SessionState × List Effect :=
  let s1 := { s with messages := s.messages ++ [ChatMsg.assistant errorResponseText] }
  let r := sendAIResponse env.fallbackTts errorResponseText s1
  (r.2.1, r.2.2)

/-- Tail of `onTranscript` shared by its two reply branches: sanitize the
chosen reply, append it as an assistant message and speak it; an exception
while speaking falls into the turn-level error handler. -/
def speakReply (env : TurnEnv) (content : String) (s : SessionState) :
    SessionState × List Effect :=
  match sendAIResponse env.mainTts (stripFunctionCalls content)
      { s with messages := s.messages ++ [ChatMsg.assistant (stripFunctionCalls content)] } with
  | (Except.ok _, s2, effs) => (s2, effs)
  | (Except.error _, s2, effs) =>
    let f := turnErrorFallback env s2
    (f.1, effs ++ f.2)

/-- `onTranscript`, the Turn-In handler. A finalized utterance arriving while
the half-duplex flag is raised is discarded before anything else happens.
Otherwise the text is corrected, appended to both transcripts, and the
reasoning router is invoked with the tool set (none for demo calls). A
response with requested actions runs the two-stage pattern: push the
assistant tool-call entry, execute every action silently, push one tool
result each, then issue the follow-up call (whose request offers no tools)
and speak its content when truthy (that branch pushes and speaks the
sanitized content without a further emptiness check). A plain text response
is sanitized and spoken only when the sanitized text is nonempty. Any thrown
error lands in the fallback handler, which speaks the fixed phrase. -/
def onTranscript (env : TurnEnv) (transcriptText : String) (s : SessionState) :
    SessionState × List Effect :=
  if s.isSpeaking then (s, [])
  else
    let correctedText := correctPlumbingTerms transcriptText
    let s1 := { s with
      transcript := s.transcript ++ [{ speaker := "user", text := correctedText }],
      messages := s.messages ++ [ChatMsg.user correctedText] }
    let toolsArg : Option (List String) := if env.isDemo then none else some TOOLS
    let chat := routerChat env.provider env.chatEnv s1.messages toolsArg
    let effs1 := chat.2.map Effect.llm
    match chat.1 with
    | Except.error _ =>
      let f := turnErrorFallback env s1
      (f.1, effs1 ++ f.2)
    | Except.ok response =>
      let s2 := { s1 with
        llmCalls := s1.llmCalls + 1,
        totalLatency := s1.totalLatency + response.latency,
        totalCost := s1.totalCost + response.cost,
        primaryProvider := some response.provider }
      if response.toolCalls.isEmpty then
        match response.content with
        | none => (s2, effs1)
        | some c =>
          if c == "" then (s2, effs1)
          else if (stripFunctionCalls c).length > 0 then
            let r := speakReply env c s2
            (r.1, effs1 ++ r.2)
          else (s2, effs1)
      else
        let s3 := { s2 with
          messages := s2.messages ++ [ChatMsg.assistantToolCalls response.toolCalls] }
        let t := execToolLoop response.toolCalls s3
        let follow := chatWithToolResults env.followEnv t.1.messages
        let effs2 := effs1 ++ t.2 ++ follow.2.map Effect.llm
        match follow.1 with
        | Except.error _ =>
          let f := turnErrorFallback env t.1
          (f.1, effs2 ++ f.2)
        | Except.ok finalResponse =>
          let s5 := { t.1 with
            llmCalls := t.1.llmCalls + 1,
            totalLatency := t.1.totalLatency + finalResponse.latency,
            totalCost := t.1.totalCost + finalResponse.cost }
          match finalResponse.content with
          | none => (s5, effs2)
          | some c =>
            if c == "" then (s5, effs2)
            else
              let r := speakReply env c s5
              (r.1, effs2 ++ r.2)

/-! ### Configuration lookup (config-api.js) and prompt building -/

/-- Body fields of a successful dashboard config response. -/
structure DashboardConfig where
  business_name : Option String
  greeting_name : Option String
  plumber_phone : Option String
  plumber_email : Option String
  system_prompt : Option String
  is_demo : Bool
  is_active : Bool
  voice_id : Option String
deriving DecidableEq, Repr

/-- Outcome of the dashboard fetch for a callee number. -/
inductive DashResponse where
  | success (cfg : DashboardConfig)
  | notFound
  | forbidden
  | httpError (status : Nat)
  | networkError (msg : String)
deriving DecidableEq, Repr

/-- The mapped configuration object `getConfigFromDashboard` hands to the
stream handler. A 404/403 produces the error-marker object (`_configError`,
`_errorReason`) whose remaining properties are absent; absent optional
strings are `none` and the absent `is_demo` flag behaves as false. -/
structure UserConfig where
  configError : Bool
  errorReason : Option String
  business_name : Option String
  greeting_name : Option String
  plumber_phone : Option String
  plumber_email : Option String
  system_prompt : Option String
  is_demo : Bool
  is_active : Bool
  twilio_phone_number : String
  user_id : Option String
  industry : Option String
  ai_voice_id : Option String
  service_area : Option String
  client_greeting : Option String
  demo_greeting : Option String
  demo_fallback_greeting : Option String
deriving DecidableEq, Repr

/-- The client greeting string generated for non-demo configs. -/
def clientGreetingText (cfg : DashboardConfig) : String :=
  "Hi, thanks for calling " ++ jsOrStr cfg.business_name ("us") ++ "! This is " ++
    jsOrStr cfg.greeting_name ("Buddy") ++ ". How can I help you today?"

/-- The demo greeting string generated for demo configs. -/
def demoGreetingText : String :=
  "Hi, this is the BuddyHelps demo line. I answer calls for plumbers. Want to hear what your customers will experience? Tell me about a plumbing problem, real or made up, and I\x27ll show you how I handle it. Go ahead."

/-- The demo fallback greeting string. -/
def demoFallbackGreetingText : String :=
  "Hi, this is the BuddyHelps demo line. I answer calls for plumbers. Tell me about a plumbing problem and I\x27ll show you how I handle it."

/-- The error-marker configuration returned for a 404 or 403: only the marker
fields and the callee number are populated. -/
def errorConfig (twilioNumber reason : String) : UserConfig :=
  { configError := true, errorReason := some reason,
    business_name := none, greeting_name := none, plumber_phone := none,
    plumber_email := none, system_prompt := none, is_demo := false,
    is_active := false, twilio_phone_number := twilioNumber, user_id := none,
    industry := none, ai_voice_id := none, service_area := none,
    client_greeting := none, demo_greeting := none, demo_fallback_greeting := none }

/-- `getConfigFromDashboard`: a 404 (not configured) or 403 (not active)
response is answered with the error-marker object, not an exception; any
other non-ok status and any fetch failure throw; a 200 is mapped onto the
shape the voice agent expects, with the BuddyHelps defaults filled in. -/
def getConfigFromDashboard (twilioNumber : String) (resp : DashResponse) :
    Except String UserConfig :=
  match resp with
  | DashResponse.notFound => Except.ok (errorConfig twilioNumber ("not configured"))
  | DashResponse.forbidden => Except.ok (errorConfig twilioNumber ("not active"))
  | DashResponse.httpError status =>
    Except.error ("Dashboard API error: " ++ toString status)
  | DashResponse.networkError msg => Except.error msg
  | DashResponse.success cfg =>
    Except.ok
      { configError := false, errorReason := none,
        business_name := cfg.business_name,
        greeting_name := some (jsOrStr cfg.greeting_name ("Buddy")),
        plumber_phone := cfg.plumber_phone,
        plumber_email := cfg.plumber_email,
        system_prompt := cfg.system_prompt,
        is_demo := cfg.is_demo,
        is_active := cfg.is_active,
        twilio_phone_number := twilioNumber,
        user_id := none,
        industry := some ("plumbing"),
        ai_voice_id := cfg.voice_id,
        service_area := none,
        client_greeting :=
          if cfg.is_demo then none else some (clientGreetingText cfg),
        demo_greeting := if cfg.is_demo then some demoGreetingText else none,
        demo_fallback_greeting := some demoFallbackGreetingText }

/-! Prompt building (prompt-builder.js). The two template texts are passed
as parameters here (the source closes over the imported template constants;
their prose does not participate in any property below). The configuration
object produced by `getConfigFromDashboard` never carries `service_types`,
`callback_window` or `business_qa` properties, so those substitutions always
take their defaults. -/

/-- Placeholder literals of the templates. -/
def phBusinessName : String := "\x7b\x7bBUSINESS_NAME\x7d\x7d"

/-- Placeholder for the derived assistant name. -/
def phAssistantName : String := "\x7b\x7bASSISTANT_NAME\x7d\x7d"

/-- Placeholder for the service (business) name used for branding. -/
def phServiceName : String := "\x7b\x7bSERVICE_NAME\x7d\x7d"

/-- Placeholder for the geographic service area. -/
def phServiceArea : String := "\x7b\x7bSERVICE_AREA\x7d\x7d"

/-- Placeholder for the industry. -/
def phIndustry : String := "\x7b\x7bINDUSTRY\x7d\x7d"

/-- Placeholder for the service-type list. -/
def phServiceTypes : String := "\x7b\x7bSERVICE_TYPES\x7d\x7d"

/-- Placeholder for the callback window. -/
def phCallbackWindow : String := "\x7b\x7bCALLBACK_WINDOW\x7d\x7d"

/-- Placeholder for the question/answer section. -/
def phBusinessQA : String := "\x7b\x7bBUSINESS_QA\x7d\x7d"

/-- Placeholder for the greeting name (custom system prompts). -/
def phGreetingName : String := "\x7b\x7bGREETING_NAME\x7d\x7d"

/-- Placeholder for the caller phone number, replaced at call time. -/
def phPhone : String := "\x7b\x7bPHONE\x7d\x7d"

/-- The default question/answer section used when no business Q/A pairs are
configured. -/
def defaultQAText : String :=
  "Answer common questions about services, pricing, and availability honestly. If you don\x27t know something, say \"Let me have someone call you back with that information.\""

/-- `getAssistantName`: strip a trailing case-insensitive `Helps` from the
business name, trim, and fall back to a generic name when nothing remains. -/
def getAssistantName (businessName : Option String) : String :=
  match businessName with
  | none => "the assistant"
  | some n =>
    if n = "" then "the assistant"
    else
      let cs := n.data
      let stripped :=
        if 5 ≤ cs.length ∧ (cs.drop (cs.length - 5)).map Char.toLower = ("helps").data
        then (String.mk (cs.take (cs.length - 5))).trim
        else n.trim
      if stripped = "" then "the assistant" else stripped

/-- `buildPrompt` on the template path (no custom system prompt): select the
demo or client template by `is_demo`, then run the substitution chain; for
demo calls with a caller number, the caller-specific industry looked up from
the demo-request store (supplied through `demoIndustry`) overrides the
config industry when present and nonempty. -/
def buildPromptFromTemplate (clientTemplate demoTemplate : String) (cfg : UserConfig)
    (demoIndustry : Option String) (callerNumber : String) : String :=
  let isDemoTemplate := cfg.is_demo
  let base := if isDemoTemplate then demoTemplate else clientTemplate
  let p1 := base.replace phBusinessName (jsOrStr cfg.business_name ("our company"))
  let p2 := p1.replace phAssistantName (getAssistantName cfg.business_name)
  let p3 := p2.replace phServiceName (jsOrStr cfg.business_name ("our service"))
  let p4 := p3.replace phServiceArea (jsOrStr cfg.service_area ("the area"))
  let industry :=
    if isDemoTemplate ∧ callerNumber ≠ "" then
      match demoIndustry with
      | some slug => if slug = "" then jsOrStr cfg.industry ("service") else slug
      | none => jsOrStr cfg.industry ("service")
    else jsOrStr cfg.industry ("service")
  let p5 := p4.replace phIndustry industry
  let p6 := p5.replace phServiceTypes ("general services")
  let p7 := p6.replace phCallbackWindow ("soon")
  p7.replace phBusinessQA defaultQAText

/-- `buildPrompt`: a truthy custom system prompt is used directly with the
business-name, greeting-name and industry substitutions; otherwise the
template path runs. -/
def buildPrompt (clientTemplate demoTemplate : String) (cfg : UserConfig)
    (demoIndustry : Option String) (callerNumber : String) : String :=
  match cfg.system_prompt with
  | some sp =>
    if sp = "" then
      buildPromptFromTemplate clientTemplate demoTemplate cfg demoIndustry callerNumber
    else
      ((sp.replace phBusinessName (jsOrStr cfg.business_name ("our company"))).replace
        phGreetingName (jsOrStr cfg.greeting_name ("the assistant"))).replace
        phIndustry (jsOrStr cfg.industry ("service"))
  | none => buildPromptFromTemplate clientTemplate demoTemplate cfg demoIndustry callerNumber

/-- `insertPhoneNumber`: substitute the caller number for its placeholder. -/
def insertPhoneNumber (p : String) (phoneNumber : String) : String :=
  p.replace phPhone phoneNumber

/-! ### Call initialization (the initialize function of the handler) -/

/-- External outcomes of one initialization: the router provider mode, the
dashboard lookup response, the demo-industry store lookup, the outcomes of
the Deepgram stream start and the Cartesia connect, the backend outcomes for
the greeting reasoning call, and the synthesis environment for speaking the
greeting. -/
structure InitEnv where
  provider : String
  dashboard : DashResponse
  demoIndustry : Option String
  deepgramStart : Except String Unit
  cartesiaConnect : Except String Unit
  greetingEnv : RouterEnv
  tts : TtsEnv

/-- The initialization sequence of the stream handler. The half-duplex flag
is raised for the whole phase and ringback starts immediately; the
configuration is fetched (its lookup answers the 404/403 cases with the
error-marker object rather than an exception, and the handler never examines
that marker); the call is counted, the system prompt is built and pushed,
Deepgram is started, Cartesia is connected after ringback, the greeting is
produced by a reasoning call with no tools offered, pushed to both
transcripts and spoken through `sendAIResponse`. Any exception on the way is
caught by the surrounding handler, which closes the transport WebSocket. -/
def initCall (clientTemplate demoTemplate : String) (twilioNumber callerNumber : String)
    (env : InitEnv) (s : SessionState) : SessionState × List Effect :=
  let s0 := { s with isSpeaking := true }
  let effs0 := [Effect.setSpeaking true, Effect.ringback]
  match getConfigFromDashboard twilioNumber env.dashboard with
  | Except.error _ => (s0, effs0 ++ [Effect.closeWs])
  | Except.ok userConfig =>
    let effs1 := effs0 ++ [Effect.callStarted]
    let customPrompt :=
      insertPhoneNumber
        (buildPrompt clientTemplate demoTemplate userConfig env.demoIndustry callerNumber)
        callerNumber
    let s1 := { s0 with messages := s0.messages ++ [ChatMsg.system customPrompt] }
    match env.deepgramStart with
    | Except.error _ => (s1, effs1 ++ [Effect.closeWs])
    | Except.ok _ =>
      match env.cartesiaConnect with
      | Except.error _ => (s1, effs1 ++ [Effect.closeWs])
      | Except.ok _ =>
        let g := routerChat env.provider env.greetingEnv s1.messages none
        let effs2 := effs1 ++ g.2.map Effect.llm
        match g.1 with
        | Except.error _ => (s1, effs2 ++ [Effect.closeWs])
        | Except.ok greetingResponse =>
          let greeting :=
            stripFunctionCalls
              (match greetingResponse.content with
               | some c => c
               | none => "")
          let s2 := { s1 with
            messages := s1.messages ++ [ChatMsg.assistant greeting],
            transcript := s1.transcript ++ [{ speaker := "ai", text := greeting }] }
          let r := sendAIResponse env.tts greeting s2
          match r.1 with
          | Except.error _ => (r.2.1, effs2 ++ r.2.2 ++ [Effect.closeWs])
          | Except.ok _ => (r.2.1, effs2 ++ r.2.2)

/-! ### Proof-layer definitions -/

/-- One table entry applied to a single word run (the per-run action of one
replace pass). -/
def runStep (p : String × String) (run : List Char) : List Char :=
  if run.map Char.toLower = p.1.data then p.2.data else run

/-- A whole table applied to one word run, in pass order. -/
def runPass (tbl : List (String × String)) (run : List Char) : List Char :=
  tbl.foldl (fun r p => runStep p r) run

/-- Well-formedness of a run decomposition: every run is nonempty and
uniform in word-character class, and adjacent runs differ in class (the
class of the run preceding the list is `prev`). `wordRuns` produces exactly
such decompositions, and they re-split to themselves. -/
def RunsOK : Option Bool → List (List Char) → Prop
  | _, [] => True
  | prev, run :: rest =>
    run ≠ [] ∧ ∃ c, (∀ ch ∈ run, isWordChar ch = c) ∧ prev ≠ some c ∧ RunsOK (some c) rest

/-- The timer waits contained in an effect trace, in order. -/
def waitsOf (effs : List Effect) : List Nat :=
  effs.filterMap (fun e => match e with
    | Effect.wait n => some n
    | _ => none)

/-- The reasoning requests (provider, messages, offered tools) contained in
an effect trace, in order; metric-tracking effects are not requests. -/
def llmRequestsOf (effs : List Effect) : List RouterEffect :=
  effs.filterMap (fun e => match e with
    | Effect.llm (RouterEffect.groqCall m t) => some (RouterEffect.groqCall m t)
    | Effect.llm (RouterEffect.geminiCall m t) => some (RouterEffect.geminiCall m t)
    | _ => none)

/-- The gemini requests (messages and offered tools) of a router effect
trace, in order. -/
def geminiCallsOf (reffs : List RouterEffect) : List (List ChatMsg × Option (List String)) :=
  reffs.filterMap (fun re => match re with
    | RouterEffect.geminiCall m t => some (m, t)
    | _ => none)

/-- Whether a synthesis WebSocket message is an audio chunk. -/
def isChunkMsg : TtsMsg → Bool
  | TtsMsg.chunk _ => true
  | _ => false

/-- Payload size of a chunk message, zero for the others. -/
def chunkBytes : TtsMsg → Nat
  | TtsMsg.chunk b => b
  | _ => 0

/-- Total chunk bytes of a timed message trace. -/
def sumChunkBytes (msgs : List (Nat × TtsMsg)) : Nat :=
  (msgs.map (fun tm => chunkBytes tm.2)).sum

/-- Arrival times of the audio chunks of a trace, in order. -/
def chunkTimes (msgs : List (Nat × TtsMsg)) : List Nat :=
  msgs.filterMap (fun tm => match tm.2 with
    | TtsMsg.chunk _ => some tm.1
    | _ => none)

/-- The streaming duration as the specification document words it: the time
from the first to the last received audio chunk. This is the spec reading,
for comparison against what the code computes. -/
def specStreamingDurationMs (msgs : List (Nat × TtsMsg)) : Nat :=
  (chunkTimes msgs).getLast?.getD 0 - (chunkTimes msgs).head?.getD 0

/-- Number of requests in flight encoded by a queue state: the processing
loop is awaiting exactly one synthesis whenever it is active. -/
def inflightOf (s : QState) : Nat := if s.isProcessingQueue then 1 else 0

/-! ### Concrete instances for witnesses and counterexamples -/

/-- Sample token usage. -/
def sampleUsage : ProviderUsage :=
  { promptTokens := 100, completionTokens := 20, totalTokens := 120 }

/-- Sample successful groq result with a plain text reply. -/
def sampleProviderOk : ProviderResult :=
  { content := some ("Okay, noted."), toolCalls := [], usage := sampleUsage }

/-- Sample successful gemini result. -/
def sampleGeminiRaw : GeminiRaw :=
  { text := "Hello there.", functionCall := none, usage := sampleUsage }

/-- A groq error carrying a transient marker (a 429 rate limit). -/
def rateLimitError : RouterError :=
  { message := "Rate limit reached", code := some ("rate_limit_exceeded"),
    status := some ("429") }

/-- Router environment in which groq fails transiently and gemini succeeds. -/
def fallbackEnv : RouterEnv :=
  { groqResult := Except.error rateLimitError,
    geminiResult := Except.ok sampleGeminiRaw,
    groqLatency := 150, geminiLatency := 420 }

/-- Router environment in which groq succeeds with plain text. -/
def groqOkEnv : RouterEnv :=
  { groqResult := Except.ok sampleProviderOk,
    geminiResult := Except.ok sampleGeminiRaw,
    groqLatency := 150, geminiLatency := 420 }

/-- Sample synthesis duration result. -/
def sampleTtsResult : TtsResult :=
  { totalBytes := 16000, audioMs := 2000, streamingDurationMs := 500 }

/-- Sample synthesis environment: fresh connection, synthesis succeeds. -/
def sampleTtsEnv : TtsEnv :=
  { lastActivity := 0, now := 1000, reconnectResult := Except.ok (),
    ttsOutcome := Except.ok sampleTtsResult }

/-- Sample turn environment with a plain-text reply. -/
def sampleTurnEnv : TurnEnv :=
  { provider := "auto", chatEnv := groqOkEnv, followEnv := groqOkEnv,
    isDemo := false, mainTts := sampleTtsEnv, fallbackTts := sampleTtsEnv }

/-- A requested service-request update action. -/
def sampleToolCall : ToolCall :=
  { id := "call_1", name := "update_service_request",
    args := [("issue", JValue.str ("leaking pipe"))] }

/-- Groq result requesting one structured action and saying nothing. -/
def toolCallProviderResult : ProviderResult :=
  { content := none, toolCalls := [sampleToolCall], usage := sampleUsage }

/-- Turn environment whose initial reasoning call requests one action. -/
def toolTurnEnv : TurnEnv :=
  { provider := "auto",
    chatEnv := { groqResult := Except.ok toolCallProviderResult,
                 geminiResult := Except.ok sampleGeminiRaw,
                 groqLatency := 150, geminiLatency := 420 },
    followEnv := groqOkEnv,
    isDemo := false, mainTts := sampleTtsEnv, fallbackTts := sampleTtsEnv }

/-- Greeting-call environment used in the not-configured scenario. -/
def c3GreetingEnv : RouterEnv :=
  { groqResult := Except.ok
      { content := some ("Hi! How can I help you today?"), toolCalls := [],
        usage := sampleUsage },
    geminiResult := Except.ok sampleGeminiRaw,
    groqLatency := 180, geminiLatency := 420 }

/-- Initialization environment for a callee number whose dashboard lookup
answers 404 (not configured); every other collaborator behaves normally. -/
def c3Env : InitEnv :=
  { provider := "auto", dashboard := DashResponse.notFound, demoIndustry := none,
    deepgramStart := Except.ok (), cartesiaConnect := Except.ok (),
    greetingEnv := c3GreetingEnv, tts := sampleTtsEnv }

/-- A synthesis message trace: two chunks of 40000 bytes at 0 ms and 200 ms,
completion signalled at 700 ms. The audio is 10 seconds long. -/
def c7Trace : List (Nat × TtsMsg) :=
  [(0, TtsMsg.chunk 40000), (200, TtsMsg.chunk 40000), (700, TtsMsg.done)]

/-- The duration result `speakText` resolves with on `c7Trace`. -/
def c7Result : TtsResult :=
  { totalBytes := 80000, audioMs := 10000, streamingDurationMs := 700 }

/-- Synthesis environment resolving with `c7Result`. -/
def c7TtsEnv : TtsEnv :=
  { lastActivity := 0, now := 0, reconnectResult := Except.ok (),
    ttsOutcome := Except.ok c7Result }

/-- The timeout rejection message of a concrete request. -/
def cTimeoutErr : String := ttsTimeoutMessage ("hello caller")

/-- A session whose half-duplex flag is raised (assistant speaking). -/
def speakingState : SessionState := { initialSessionState with isSpeaking := true }

/-- Retry environment whose first attempt times out and whose retry
succeeds after a successful reconnect. -/
def retryTimeoutEnv : RetryEnv :=
  { attempt := fun n => if n = 0 then Except.error cTimeoutErr else Except.ok sampleTtsResult,
    reconnect := fun _ => Except.ok () }

/-! ## Theorems

### C10: idempotence of the correction pass -/

theorem isWordChar_of_toLower_isLower (ch : Char) (h : (Char.toLower ch).isLower = true) :
    isWordChar ch = true := by
  unfold Char.toLower at h
  by_cases hc : Char.toNat ch ≥ 65 ∧ Char.toNat ch ≤ 90
  · simp [isWordChar, Char.isAlpha, Char.isUpper]
    left
    simp [Char.le_def, UInt32.le_def, BitVec.le_def, Char.toNat, UInt32.toNat] at hc ⊢
    omega
  · simp [hc] at h
    simp [isWordChar, Char.isAlpha, h]

theorem takeWhile_append_all (p : Char → Bool) (xs ys : List Char)
    (h : ∀ x ∈ xs, p x = true) : (xs ++ ys).takeWhile p = xs ++ ys.takeWhile p := by
  induction xs with
  | nil => simp
  | cons a xs ih =>
    have ha : p a = true := h a (by simp)
    simp [List.takeWhile_cons, ha]
    exact ih (fun x hx => h x (by simp [hx]))

theorem dropWhile_append_all (p : Char → Bool) (xs ys : List Char)
    (h : ∀ x ∈ xs, p x = true) : (xs ++ ys).dropWhile p = ys.dropWhile p := by
  induction xs with
  | nil => simp
  | cons a xs ih =>
    have ha : p a = true := h a (by simp)
    simp [List.dropWhile_cons, ha]
    exact ih (fun x hx => h x (by simp [hx]))

theorem wordRuns_flatten (l : List Char) : (wordRuns l).flatten = l := by
  induction l using wordRuns.induct with
  | case1 => simp [wordRuns]
  | case2 a rest ih =>
    rw [wordRuns]
    simp only [List.flatten_cons, ih]
    simp [List.takeWhile_append_dropWhile]

theorem head_dropWhile_not (p : Char → Bool) (l : List Char) (x : Char)
    (h : (l.dropWhile p).head? = some x) : p x = false := by
  induction l with
  | nil => simp [List.dropWhile] at h
  | cons a l ih =>
    by_cases ha : p a = true
    · rw [List.dropWhile_cons_of_pos ha] at h
      exact ih h
    · rw [List.dropWhile_cons_of_neg (by simpa using ha)] at h
      simp at h
      subst h
      simpa using ha

theorem mem_takeWhile_sat (p : Char → Bool) (l : List Char) (x : Char)
    (h : x ∈ l.takeWhile p) : p x = true :=
  List.mem_takeWhile_imp h

theorem wordRuns_ok (l : List Char) :
    ∀ prev : Option Bool,
      (∀ a, l.head? = some a → prev ≠ some (isWordChar a)) →
      RunsOK prev (wordRuns l) := by
  induction l using wordRuns.induct with
  | case1 => intro prev _; simp [wordRuns, RunsOK]
  | case2 a rest ih =>
    intro prev hprev
    rw [wordRuns]
    refine ⟨by simp, isWordChar a, ?_, ?_, ?_⟩
    · intro ch hch
      rcases List.mem_cons.mp hch with h | h
      · subst h; rfl
      · have := mem_takeWhile_sat _ _ _ h
        simpa using this
    · exact hprev a rfl
    · apply ih
      intro b hb
      have hpb := head_dropWhile_not (fun c => isWordChar c == isWordChar a) rest b hb
      simp at hpb
      simp only [ne_eq, Option.some.injEq]
      exact fun hcc => hpb hcc.symm

theorem resplit (runs : List (List Char)) :
    ∀ prev : Option Bool, RunsOK prev runs → wordRuns runs.flatten = runs := by
  induction runs with
  | nil => intro prev _; simp [wordRuns]
  | cons run rest ih =>
    intro prev hok
    obtain ⟨hne, c, hcl, -, hrest⟩ := hok
    obtain ⟨a, t, rfl⟩ : ∃ a t, run = a :: t := by
      cases run with
      | nil => exact absurd rfl hne
      | cons a t => exact ⟨a, t, rfl⟩
    have hca : isWordChar a = c := hcl a (by simp)
    have htail : ∀ x ∈ t, (fun ch => isWordChar ch == isWordChar a) x = true := by
      intro x hx
      have := hcl x (by simp [hx])
      simp [this, hca]
    have hheadrest : ∀ x, rest.flatten.head? = some x →
        (isWordChar x == isWordChar a) = false := by
      intro x hx
      cases rest with
      | nil => simp at hx
      | cons r2 rest2 =>
        obtain ⟨hne2, c2, hcl2, hne_c2, -⟩ := hrest
        obtain ⟨b, t2, rfl⟩ : ∃ b t2, r2 = b :: t2 := by
          cases r2 with
          | nil => exact absurd rfl hne2
          | cons b t2 => exact ⟨b, t2, rfl⟩
        have hxb : b = x := by simpa using hx
        have hb2 : isWordChar b = c2 := hcl2 b (by simp)
        rw [← hxb]
        simp only [beq_eq_false_iff_ne, ne_eq]
        intro hcc
        have hc2c : c2 = c := by rw [← hb2, hcc, hca]
        exact hne_c2 (by rw [hc2c])
    have hflat : (((a :: t) :: rest).flatten) = a :: (t ++ rest.flatten) := by simp
    rw [hflat, wordRuns]
    have htake : (t ++ rest.flatten).takeWhile (fun ch => isWordChar ch == isWordChar a) = t := by
      rw [takeWhile_append_all _ _ _ htail]
      cases hfl : rest.flatten with
      | nil => simp
      | cons y ys =>
        have hy := hheadrest y (by rw [hfl]; rfl)
        simp [List.takeWhile_cons, hy]
    have hdrop : (t ++ rest.flatten).dropWhile (fun ch => isWordChar ch == isWordChar a)
        = rest.flatten := by
      rw [dropWhile_append_all _ _ _ htail]
      cases hfl : rest.flatten with
      | nil => simp
      | cons y ys =>
        have hy := hheadrest y (by rw [hfl]; rfl)
        simp [List.dropWhile_cons, hy]
    rw [htake, hdrop, ih (some c) hrest]

theorem wrongs_lower :
    ∀ p ∈ corrections, ∀ c ∈ p.1.data, c.isLower = true := by decide

theorem rights_word :
    ∀ p ∈ corrections, p.2.data ≠ [] ∧ ∀ c ∈ p.2.data, isWordChar c = true := by decide

theorem rights_clean :
    ∀ q ∈ corrections, ∀ p ∈ corrections, ¬(q.2.data.map Char.toLower = p.1.data) := by decide

theorem matched_run_word (p : String × String) (hp : p ∈ corrections) (run : List Char)
    (h : run.map Char.toLower = p.1.data) : ∀ ch ∈ run, isWordChar ch = true := by
  intro ch hch
  have hmem : Char.toLower ch ∈ p.1.data := by
    rw [← h]
    exact List.mem_map_of_mem _ hch
  exact isWordChar_of_toLower_isLower ch (wrongs_lower p hp _ hmem)

theorem runPass_fix (tbl : List (String × String)) (y : List Char)
    (hy : ∀ p ∈ tbl, ¬(y.map Char.toLower = p.1.data)) : runPass tbl y = y := by
  induction tbl with
  | nil => rfl
  | cons p rest ih =>
    have hnp : ¬(y.map Char.toLower = p.1.data) := hy p (by simp)
    show runPass rest (runStep p y) = y
    rw [runStep, if_neg hnp]
    exact ih (fun q hq => hy q (by simp [hq]))

theorem runPass_cases (tbl : List (String × String)) (hs : ∀ p ∈ tbl, p ∈ corrections)
    (run : List Char) :
    runPass tbl run = run ∨
      ∃ q ∈ corrections, runPass tbl run = q.2.data ∧
        ∃ p ∈ corrections, run.map Char.toLower = p.1.data := by
  induction tbl with
  | nil => left; rfl
  | cons p0 rest ih =>
    have hp0 : p0 ∈ corrections := hs p0 (by simp)
    by_cases hm : run.map Char.toLower = p0.1.data
    · right
      refine ⟨p0, hp0, ?_, p0, hp0, hm⟩
      show runPass rest (runStep p0 run) = p0.2.data
      rw [runStep, if_pos hm]
      exact runPass_fix rest p0.2.data
        (fun q hq => rights_clean p0 hp0 q (hs q (by simp [hq])))
    · have : runPass (p0 :: rest) run = runPass rest run := by
        show runPass rest (runStep p0 run) = runPass rest run
        rw [runStep, if_neg hm]
      rw [this]
      exact ih (fun q hq => hs q (by simp [hq]))

theorem runPass_preserves (tbl : List (String × String)) (hs : ∀ p ∈ tbl, p ∈ corrections)
    (run : List Char) (c : Bool) (hne : run ≠ []) (hcl : ∀ ch ∈ run, isWordChar ch = c) :
    runPass tbl run ≠ [] ∧ ∀ ch ∈ runPass tbl run, isWordChar ch = c := by
  rcases runPass_cases tbl hs run with h | ⟨q, hq, hqe, p, hp, hm⟩
  · rw [h]; exact ⟨hne, hcl⟩
  · have hctrue : c = true := by
      obtain ⟨a, t, rfl⟩ : ∃ a t, run = a :: t := by
        cases run with
        | nil => exact absurd rfl hne
        | cons a t => exact ⟨a, t, rfl⟩
      have := matched_run_word p hp _ hm a (by simp)
      rw [← hcl a (by simp), this]
    rw [hqe, hctrue]
    exact rights_word q hq

theorem runsOK_map (tbl : List (String × String)) (hs : ∀ p ∈ tbl, p ∈ corrections) :
    ∀ (runs : List (List Char)) (prev : Option Bool),
      RunsOK prev runs → RunsOK prev (runs.map (runPass tbl)) := by
  intro runs
  induction runs with
  | nil => intro prev h; exact h
  | cons run rest ih =>
    intro prev hok
    obtain ⟨hne, c, hcl, hprev, hrest⟩ := hok
    obtain ⟨hne2, hcl2⟩ := runPass_preserves tbl hs run c hne hcl
    exact ⟨hne2, c, hcl2, hprev, ih (some c) hrest⟩

theorem replaceWordAll_eq (p : String × String) (l : List Char) :
    replaceWordAll p.1 p.2 l = ((wordRuns l).map (runStep p)).flatten := rfl

theorem foldPass_eq (tbl : List (String × String)) (hs : ∀ p ∈ tbl, p ∈ corrections) :
    ∀ l : List Char,
      tbl.foldl (fun t p => replaceWordAll p.1 p.2 t) l =
        ((wordRuns l).map (runPass tbl)).flatten := by
  induction tbl with
  | nil =>
    intro l
    show l = ((wordRuns l).map (runPass [])).flatten
    have : (wordRuns l).map (runPass []) = wordRuns l := by
      apply List.map_id''
      intro run
      rfl
    rw [this, wordRuns_flatten]
  | cons p0 rest ih =>
    intro l
    have hp0 : p0 ∈ corrections := hs p0 (by simp)
    have hsrest : ∀ p ∈ rest, p ∈ corrections := fun q hq => hs q (by simp [hq])
    show rest.foldl (fun t p => replaceWordAll p.1 p.2 t) (replaceWordAll p0.1 p0.2 l) = _
    rw [ih hsrest, replaceWordAll_eq]
    have hstep : (wordRuns l).map (runStep p0) = (wordRuns l).map (runPass [p0]) := by
      apply List.map_congr_left
      intro run _
      rfl
    have hok : RunsOK none ((wordRuns l).map (runPass [p0])) := by
      apply runsOK_map [p0] (by simpa using hp0)
      exact wordRuns_ok l none (by simp)
    rw [hstep, resplit _ none hok, List.map_map]
    rfl

theorem runPass_idem (run : List Char) :
    runPass corrections (runPass corrections run) = runPass corrections run := by
  rcases runPass_cases corrections (fun p hp => hp) run with h | ⟨q, hq, hqe, -⟩
  · rw [h, h]
  · rw [hqe]
    exact runPass_fix corrections q.2.data (fun p hp => rights_clean q hq p hp)

theorem foldPass_idem (l : List Char) :
    corrections.foldl (fun t p => replaceWordAll p.1 p.2 t)
        (corrections.foldl (fun t p => replaceWordAll p.1 p.2 t) l) =
      corrections.foldl (fun t p => replaceWordAll p.1 p.2 t) l := by
  have hok : RunsOK none ((wordRuns l).map (runPass corrections)) := by
    apply runsOK_map corrections (fun p hp => hp)
    exact wordRuns_ok l none (by simp)
  rw [foldPass_eq corrections (fun p hp => hp) l]
  rw [foldPass_eq corrections (fun p hp => hp)]
  rw [resplit _ none hok, List.map_map]
  refine congrArg List.flatten (List.map_congr_left ?_)
  intro run _
  simp only [Function.comp_apply]
  exact runPass_idem run

/-- C10: the mis-heard-term correction pass is idempotent: for every input
string, applying the whole-word case-insensitive substitution pass to
already-corrected text yields the same text, with no double substitution. -/
theorem correctPlumbingTerms_idempotent (s : String) :
    correctPlumbingTerms (correctPlumbingTerms s) = correctPlumbingTerms s :=
  congrArg String.mk (foldPass_idem s.data)

/-! ### C5: collected-data record semantics -/

theorem executeToolCall_update (i : String) (args : List (String × JValue))
    (cd : List (String × JValue)) :
    (executeToolCall { id := i, name := "update_service_request", args := args } cd).2.1
      = objAssign cd args := rfl

theorem lookup_setKey (k f : String) (v : JValue) :
    ∀ cd : List (String × JValue),
      List.lookup f (setKey cd k v) = if k = f then some v else List.lookup f cd := by
  intro cd
  induction cd with
  | nil =>
    by_cases h : k = f
    · subst h
      simp [setKey, List.lookup]
    · have hb : (f == k) = false := beq_eq_false_iff_ne.mpr (fun hfk => h hfk.symm)
      simp [setKey, List.lookup, hb, h]
  | cons kv rest ih =>
    obtain ⟨k0, v0⟩ := kv
    by_cases h0 : k0 = k
    · subst h0
      by_cases hf : k0 = f
      · subst hf
        simp [setKey, List.lookup]
      · have hb : (f == k0) = false := beq_eq_false_iff_ne.mpr (fun hfk => hf hfk.symm)
        simp [setKey, List.lookup, hb, hf]
    · by_cases hf : k0 = f
      · subst hf
        have hkf : ¬(k = k0) := fun hh => h0 hh.symm
        simp [setKey, h0, List.lookup, hkf]
      · have hb : (f == k0) = false := beq_eq_false_iff_ne.mpr (fun hfk => hf hfk.symm)
        simp [setKey, h0, List.lookup, hb, ih]

theorem lookupArg_append (ys : List (String × JValue)) (f : String) :
    ∀ xs : List (String × JValue),
      lookupArg (xs ++ ys) f =
        match lookupArg ys f with
        | some w => some w
        | none => lookupArg xs f := by
  intro xs
  induction xs with
  | nil =>
    simp only [List.nil_append]
    cases lookupArg ys f <;> rfl
  | cons kv rest ih =>
    obtain ⟨k, v⟩ := kv
    simp only [List.cons_append]
    show (match lookupArg (rest ++ ys) f with
      | some w => some w
      | none => if k = f then some v else none) = _
    rw [ih]
    cases hys : lookupArg ys f <;> cases hrest : lookupArg rest f <;>
      simp [lookupArg, hys, hrest]

theorem lookup_objAssign (args : List (String × JValue)) :
    ∀ (cd : List (String × JValue)) (f : String),
      List.lookup f (objAssign cd args) =
        match lookupArg args f with
        | some w => some w
        | none => List.lookup f cd := by
  induction args with
  | nil => intro cd f; rfl
  | cons kv rest ih =>
    intro cd f
    obtain ⟨k, v⟩ := kv
    show List.lookup f (objAssign (setKey cd k v) rest) = _
    rw [ih (setKey cd k v) f]
    simp only [lookupArg]
    cases hrest : lookupArg rest f with
    | some w => rfl
    | none =>
      rw [lookup_setKey]
      by_cases hk : k = f
      · simp [hk]
      · simp [hk]

theorem runFold_lookup (acts : List (List (String × JValue))) :
    ∀ (cd : List (String × JValue)) (f : String),
      List.lookup f
          (acts.foldl
            (fun cd args =>
              (executeToolCall { id := "tc", name := "update_service_request", args := args } cd).2.1)
            cd) =
        match lookupArg acts.flatten f with
        | some w => some w
        | none => List.lookup f cd := by
  induction acts with
  | nil => intro cd f; rfl
  | cons a rest ih =>
    intro cd f
    simp only [List.foldl_cons, List.flatten_cons]
    rw [ih _ f, executeToolCall_update, lookupArg_append]
    cases hrest : lookupArg rest.flatten f with
    | some w => rfl
    | none =>
      rw [lookup_objAssign]

/-- C5 (amended): for any sequence of service-request update actions, a
field's final value is exactly the value supplied by the last action whose
arguments mention it, an explicit null included; a field no action mentions
keeps its initial (null) binding. -/
theorem collectedData_last_update_wins (acts : List (List (String × JValue))) (f : String) :
    List.lookup f (runUpdateActions acts) =
      match lastSupplied acts f with
      | some v => some v
      | none => List.lookup f initialCollectedData := by
  unfold runUpdateActions lastSupplied
  exact runFold_lookup acts initialCollectedData f

/-- C5 counterexample: an executed update action whose arguments carry an
explicit null for a field returns that field to its unset state, so a set
field does not stay set across arbitrary update sequences: after
`issue := leaking pipe` the field is set, and a subsequent
`issue := null` unsets it. -/
theorem collectedData_null_unset_counterexample :
    fieldIsSet (runUpdateActions [[(("issue"), JValue.str ("leaking pipe"))]]) ("issue") = true ∧
    fieldIsSet (runUpdateActions
        [[(("issue"), JValue.str ("leaking pipe"))], [(("issue"), JValue.null)]]) ("issue")
      = false := by
  constructor <;> rfl

/-! ### C8: the single-flight synthesis queue -/

theorem flightAfter_append (xs : List QAction) :
    ∀ (k : Nat) (ys : List QAction),
      flightAfter k (xs ++ ys) = (flightAfter k xs).bind (fun k2 => flightAfter k2 ys) := by
  induction xs with
  | nil => intro k ys; rfl
  | cons a xs ih =>
    intro k ys
    cases a with
    | dispatch id =>
      by_cases hk : k = 0
      · simp [flightAfter, hk, ih]
      · simp [flightAfter, hk]
    | settled =>
      by_cases hk : k = 1
      · simp [flightAfter, hk, ih]
      · simp [flightAfter, hk]

theorem queueStep_flight (s : QState) (e : QEvent) :
    flightAfter (inflightOf s) (queueStep s e).2 = some (inflightOf (queueStep s e).1) := by
  cases e with
  | submit id =>
    by_cases hp : s.isProcessingQueue
    · simp [queueStep, hp, inflightOf, flightAfter]
    · cases hq : s.ttsQueue with
      | nil => simp [queueStep, hp, hq, inflightOf, flightAfter]
      | cons h t => simp [queueStep, hp, hq, inflightOf, flightAfter]
  | finish =>
    by_cases hp : s.isProcessingQueue
    · cases hq : s.ttsQueue with
      | nil => simp [queueStep, hp, hq, inflightOf, flightAfter]
      | cons h t => simp [queueStep, hp, hq, inflightOf, flightAfter]
    · simp [queueStep, hp, inflightOf, flightAfter]

theorem queueStep_fifo (s : QState) (e : QEvent) :
    dispatchedIds (queueStep s e).2 ++ (queueStep s e).1.ttsQueue
      = s.ttsQueue ++ submittedIds [e] := by
  cases e with
  | submit id =>
    by_cases hp : s.isProcessingQueue
    · simp [queueStep, hp, dispatchedIds, submittedIds]
    · cases hq : s.ttsQueue with
      | nil => simp [queueStep, hp, hq, dispatchedIds, submittedIds]
      | cons h t => simp [queueStep, hp, hq, dispatchedIds, submittedIds]
  | finish =>
    by_cases hp : s.isProcessingQueue
    · cases hq : s.ttsQueue with
      | nil => simp [queueStep, hp, hq, dispatchedIds, submittedIds]
      | cons h t => simp [queueStep, hp, hq, dispatchedIds, submittedIds]
    · simp [queueStep, hp, dispatchedIds, submittedIds]

theorem dispatchedIds_append (xs ys : List QAction) :
    dispatchedIds (xs ++ ys) = dispatchedIds xs ++ dispatchedIds ys := by
  simp [dispatchedIds]

theorem submittedIds_cons (e : QEvent) (es : List QEvent) :
    submittedIds (e :: es) = submittedIds [e] ++ submittedIds es := by
  cases e <;> simp [submittedIds]

theorem runQueue_invariants (es : List QEvent) :
    ∀ s : QState,
      flightAfter (inflightOf s) (runQueue s es).2 = some (inflightOf (runQueue s es).1) ∧
      dispatchedIds (runQueue s es).2 ++ (runQueue s es).1.ttsQueue
        = s.ttsQueue ++ submittedIds es := by
  induction es with
  | nil => intro s; exact ⟨rfl, by simp [runQueue, dispatchedIds, submittedIds]⟩
  | cons e es ih =>
    intro s
    obtain ⟨ihf, ihd⟩ := ih (queueStep s e).1
    constructor
    · show flightAfter (inflightOf s) ((queueStep s e).2 ++ (runQueue (queueStep s e).1 es).2)
        = _
      rw [flightAfter_append, queueStep_flight]
      exact ihf
    · show dispatchedIds ((queueStep s e).2 ++ (runQueue (queueStep s e).1 es).2) ++
          (runQueue (queueStep s e).1 es).1.ttsQueue = s.ttsQueue ++ submittedIds (e :: es)
      rw [dispatchedIds_append, List.append_assoc, ihd, ← List.append_assoc,
        queueStep_fifo, List.append_assoc, ← submittedIds_cons]

/-- C8: over any sequence of queue submissions and settlements, the action
trace of the synthesis queue is single-flight (a request is dispatched only
while none is in flight, so a second request never runs concurrently with
the first) and the dispatched requests are exactly an initial segment of the
submitted requests in submission order (the rest still sitting in the
queue). -/
theorem queueSpeakText_single_flight (es : List QEvent) :
    flightAfter 0 (runQueue initialQState es).2
        = some (inflightOf (runQueue initialQState es).1) ∧
    dispatchedIds (runQueue initialQState es).2 ++ (runQueue initialQState es).1.ttsQueue
        = submittedIds es := by
  have h := runQueue_invariants es initialQState
  exact ⟨h.1, by simpa [initialQState] using h.2⟩

/-! ### C9: bounded synthesis retry -/

/-- C9: `speakTextWithRetry` retries exactly once, and only for a synthesis
timeout. When the first attempt fails with an error whose message does not
contain the timeout marker, no retry happens and the error propagates
immediately after the single attempt; when the message contains the marker
and the reconnect succeeds, exactly one reconnect and one further attempt
are performed and the outcome of that single retry (success or failure)
is returned to the caller. -/
theorem speakTextWithRetry_policy (env : RetryEnv) (e : String)
    (h0 : env.attempt 0 = Except.error e) :
    (isTtsTimeout e = false →
      speakTextWithRetry env = (Except.error e, [RetryEffect.speakCall 0])) ∧
    (isTtsTimeout e = true → env.reconnect 0 = Except.ok () →
      speakTextWithRetry env =
        (env.attempt 1,
         [RetryEffect.speakCall 0, RetryEffect.reconnectCall, RetryEffect.speakCall 1])) := by
  constructor
  · intro ht
    unfold speakTextWithRetry
    rw [speakTextWithRetryGo, h0]
    simp [ht]
  · intro ht hrec
    have hgo1 : speakTextWithRetryGo env 1 1 = (env.attempt 1, [RetryEffect.speakCall 1]) := by
      rw [speakTextWithRetryGo]
      cases a1 : env.attempt 1 with
      | ok r => simp
      | error e2 => simp
    unfold speakTextWithRetry
    rw [speakTextWithRetryGo, h0]
    simp [ht, hrec, hgo1]

theorem speakTextWithRetry_policy_witness :
    retryTimeoutEnv.attempt 0 = Except.error cTimeoutErr ∧
    ((isTtsTimeout cTimeoutErr = false →
        speakTextWithRetry retryTimeoutEnv
          = (Except.error cTimeoutErr, [RetryEffect.speakCall 0])) ∧
      (isTtsTimeout cTimeoutErr = true → retryTimeoutEnv.reconnect 0 = Except.ok () →
        speakTextWithRetry retryTimeoutEnv =
          (retryTimeoutEnv.attempt 1,
           [RetryEffect.speakCall 0, RetryEffect.reconnectCall, RetryEffect.speakCall 1]))) :=
  ⟨rfl, speakTextWithRetry_policy retryTimeoutEnv cTimeoutErr rfl⟩

/-! ### C6: provider fallback in the reasoning router -/

/-- C6: in auto mode, when the primary groq call fails with an error whose
message, code or status contains a transient marker, the router issues
exactly one gemini call with the identical message list (and tool set),
returns the gemini response tagged `provider := gemini, isFallback := true`
(a gemini failure propagates), and metrics record the fallback; when the
error carries no transient marker, the groq error propagates immediately
and gemini is never called. -/
theorem llmRouter_auto_fallback (env : RouterEnv) (messages : List ChatMsg)
    (tools : Option (List String)) (e : RouterError)
    (hg : env.groqResult = Except.error e) :
    (shouldFallback e = true →
      geminiCallsOf (routerChat ("auto") env messages tools).2 = [(messages, tools)] ∧
      (routerChat ("auto") env messages tools).1 =
        (match env.geminiResult with
         | Except.ok g => Except.ok (geminiRouterResponse g env.geminiLatency true)
         | Except.error ge => Except.error ge) ∧
      (∀ g, env.geminiResult = Except.ok g →
        RouterEffect.track ("gemini") (geminiCalculateCost g.usage) env.geminiLatency true
          ∈ (routerChat ("auto") env messages tools).2)) ∧
    (shouldFallback e = false →
      (routerChat ("auto") env messages tools).1 = Except.error e ∧
      geminiCallsOf (routerChat ("auto") env messages tools).2 = []) := by
  constructor
  · intro hf
    refine ⟨?_, ?_, ?_⟩
    · cases hgem : env.geminiResult with
      | ok g => simp [routerChat, callGroq, callGemini, hg, hf, hgem, geminiCallsOf]
      | error ge => simp [routerChat, callGroq, callGemini, hg, hf, hgem, geminiCallsOf]
    · cases hgem : env.geminiResult with
      | ok g => simp [routerChat, callGroq, callGemini, hg, hf, hgem]
      | error ge => simp [routerChat, callGroq, callGemini, hg, hf, hgem]
    · intro g hgem
      simp [routerChat, callGroq, callGemini, hg, hf, hgem]
  · intro hf
    constructor
    · simp [routerChat, callGroq, hg, hf]
    · simp [routerChat, callGroq, hg, hf, geminiCallsOf]

theorem llmRouter_auto_fallback_witness :
    fallbackEnv.groqResult = Except.error rateLimitError ∧
    ((shouldFallback rateLimitError = true →
        geminiCallsOf (routerChat ("auto") fallbackEnv [] none).2 = [([], none)] ∧
        (routerChat ("auto") fallbackEnv [] none).1 =
          (match fallbackEnv.geminiResult with
           | Except.ok g => Except.ok (geminiRouterResponse g fallbackEnv.geminiLatency true)
           | Except.error ge => Except.error ge) ∧
        (∀ g, fallbackEnv.geminiResult = Except.ok g →
          RouterEffect.track ("gemini") (geminiCalculateCost g.usage) fallbackEnv.geminiLatency
              true
            ∈ (routerChat ("auto") fallbackEnv [] none).2)) ∧
      (shouldFallback rateLimitError = false →
        (routerChat ("auto") fallbackEnv [] none).1 = Except.error rateLimitError ∧
        geminiCallsOf (routerChat ("auto") fallbackEnv [] none).2 = [])) :=
  ⟨rfl, llmRouter_auto_fallback fallbackEnv [] none rateLimitError rfl⟩

/-! ### C2: guaranteed half-duplex flag cleanup -/

/-- C2: for every `sendAIResponse` invocation, whatever the refresh and
synthesis outcomes (success, failure after the bounded retry, or a thrown
error at the refresh or queue step), the half-duplex flag is false in the
resulting session state: the `finally` clause clears it on the success path
and on every exception path alike, so the session can accept the next
caller utterance. -/
theorem sendAIResponse_always_clears_flag (env : TtsEnv) (text : String) (s : SessionState) :
    (sendAIResponse env text s).2.1.isSpeaking = false := rfl

/-! ### C1: half-duplex discard of in-flight transcripts -/

/-- C1: a finalized utterance delivered while the half-duplex flag is raised
is discarded whole: the handler returns with the session state unchanged (no
display-transcript entry, no model-facing message, unchanged collected data
and metrics) and an empty effect trace (in particular, the reasoning router
is never invoked). -/
theorem onTranscript_discards_while_speaking (env : TurnEnv) (transcriptText : String)
    (s : SessionState) (h : s.isSpeaking = true) :
    onTranscript env transcriptText s = (s, []) := by
  simp [onTranscript, h]

theorem onTranscript_discards_while_speaking_witness :
    speakingState.isSpeaking = true ∧
    onTranscript sampleTurnEnv ("my sink is quogged") speakingState = (speakingState, []) :=
  ⟨rfl, onTranscript_discards_while_speaking sampleTurnEnv ("my sink is quogged")
    speakingState rfl⟩

/-! ### C7: the playback wait of Turn-Out -/

theorem speakTextRun_chunks_done (text : String) (td f : Nat) :
    ∀ (mid : List (Nat × TtsMsg)) (st : TtsProgress),
      (∀ tm ∈ mid, isChunkMsg tm.2 = true) → st.chunkCount ≠ 0 →
      st.firstChunkTime = some f →
      speakTextRun text (mid ++ [(td, TtsMsg.done)]) st =
        some (Except.ok
          { totalBytes := st.totalBytes + sumChunkBytes mid,
            audioMs := ((st.totalBytes + sumChunkBytes mid) * 1000 + 7999) / 8000,
            streamingDurationMs := td - f }) := by
  intro mid
  induction mid with
  | nil =>
    intro st hmid hcc hf
    simp only [List.nil_append]
    rw [speakTextRun]
    simp [hcc, hf, sumChunkBytes]
  | cons tm mid ih =>
    intro st hmid hcc hf
    obtain ⟨t, m⟩ := tm
    cases m with
    | chunk b =>
      have hcond : ¬(st.chunkCount = 0 ∧ t > 10000) := fun hh => hcc hh.1
      have hrec := ih
        { chunkCount := st.chunkCount + 1, totalBytes := st.totalBytes + b,
          firstChunkTime := some f }
        (fun x hx => hmid x (by simp [hx])) (by simp) rfl
      simp only [List.cons_append, speakTextRun, hcond, if_false, ite_false, hf,
        List.append_eq]
      rw [hrec]
      simp [sumChunkBytes, chunkBytes, Nat.add_assoc]
    | done =>
      have := hmid (t, TtsMsg.done) (by simp)
      simp [isChunkMsg] at this
    | errMsg e =>
      have := hmid (t, TtsMsg.errMsg e) (by simp)
      simp [isChunkMsg] at this

/-- C7 counterexample: on a trace whose completion signal arrives later than
the last audio chunk, the wait the turn-out path performs differs from the
value of the claimed formula, because the code measures
`streamingDurationMs` up to the completion signal, not up to the last
received chunk. On `c7Trace` (chunks at 0 ms and 200 ms, completion at
700 ms, 10 s of audio) the code waits 9600 ms while the claimed formula
yields 10100 ms. -/
theorem sendAIResponse_wait_formula_counterexample :
    speakTextRun ("hi") c7Trace initialTtsProgress = some (Except.ok c7Result) ∧
    waitsOf (sendAIResponse c7TtsEnv ("hi") initialSessionState).2.2 = [9600] ∧
    (c7Result.audioMs - specStreamingDurationMs c7Trace) + playbackBuffer = 10100 ∧
    waitsOf (sendAIResponse c7TtsEnv ("hi") initialSessionState).2.2 ≠
      [(c7Result.audioMs - specStreamingDurationMs c7Trace) + playbackBuffer] := by
  refine ⟨rfl, rfl, rfl, ?_⟩
  decide

/-- C7 (amended): when the gateway reports completion, the turn-out path
waits exactly `max(0, audioMs - streamingDurationMs) + 300` milliseconds and
only then clears the turn-taking flag, where
`audioMs = ceil(totalBytes / 8000 * 1000)` is the synthesized audio duration
(8 kHz mu-law) and `streamingDurationMs` is the time from the first received
audio chunk to the gateway completion signal. -/
theorem sendAIResponse_playback_wait (text utterText : String) (t1 b1 td : Nat)
    (mid : List (Nat × TtsMsg)) (env : TtsEnv) (s : SessionState) (r : TtsResult)
    (hmid : ∀ tm ∈ mid, isChunkMsg tm.2 = true)
    (ht : t1 ≤ 10000)
    (hrun : speakTextRun text ((t1, TtsMsg.chunk b1) :: (mid ++ [(td, TtsMsg.done)]))
        initialTtsProgress = some (Except.ok r))
    (hrec : env.reconnectResult = Except.ok ())
    (henv : env.ttsOutcome = Except.ok r) :
    r.totalBytes = b1 + sumChunkBytes mid ∧
    r.audioMs = (r.totalBytes * 1000 + 7999) / 8000 ∧
    r.streamingDurationMs = td - t1 ∧
    ∃ pre, (sendAIResponse env utterText s).2.2 =
      pre ++ [Effect.wait ((r.audioMs - r.streamingDurationMs) + playbackBuffer),
              Effect.setSpeaking false] := by
  have hcond : ¬(initialTtsProgress.chunkCount = 0 ∧ t1 > 10000) := by
    simp [initialTtsProgress]
    omega
  have hrun2 : speakTextRun text ((t1, TtsMsg.chunk b1) :: (mid ++ [(td, TtsMsg.done)]))
      initialTtsProgress =
      some (Except.ok
        { totalBytes := b1 + sumChunkBytes mid,
          audioMs := ((b1 + sumChunkBytes mid) * 1000 + 7999) / 8000,
          streamingDurationMs := td - t1 }) := by
    have hstep := speakTextRun_chunks_done text td t1 mid
      { chunkCount := 1, totalBytes := b1, firstChunkTime := some t1 } hmid (by simp) rfl
    have hlt : ¬(10000 < t1) := by omega
    simpa [speakTextRun, initialTtsProgress, hlt] using hstep
  have hr : r =
      { totalBytes := b1 + sumChunkBytes mid,
        audioMs := ((b1 + sumChunkBytes mid) * 1000 + 7999) / 8000,
        streamingDurationMs := td - t1 } := by
    have := hrun.symm.trans hrun2
    simpa using this
  refine ⟨by rw [hr], by rw [hr], by rw [hr], ?_⟩
  by_cases hnr : needsRefresh env.lastActivity env.now
  · refine ⟨[Effect.setSpeaking true, Effect.refreshTts, Effect.queueSpeak utterText], ?_⟩
    simp [sendAIResponse, sendAIResponseBody, sendAIResponseCore, hnr, hrec, henv]
  · refine ⟨[Effect.setSpeaking true, Effect.queueSpeak utterText], ?_⟩
    simp [sendAIResponse, sendAIResponseBody, sendAIResponseCore, hnr, hrec, henv]

theorem sendAIResponse_playback_wait_witness :
    (∀ tm ∈ [((200 : Nat), TtsMsg.chunk 40000)], isChunkMsg tm.2 = true) ∧
    (0 : Nat) ≤ 10000 ∧
    speakTextRun ("hi")
        ((0, TtsMsg.chunk 40000) :: ([(200, TtsMsg.chunk 40000)] ++ [(700, TtsMsg.done)]))
        initialTtsProgress = some (Except.ok c7Result) ∧
    c7TtsEnv.reconnectResult = Except.ok () ∧
    c7TtsEnv.ttsOutcome = Except.ok c7Result ∧
    (c7Result.totalBytes = 40000 + sumChunkBytes [(200, TtsMsg.chunk 40000)] ∧
     c7Result.audioMs = (c7Result.totalBytes * 1000 + 7999) / 8000 ∧
     c7Result.streamingDurationMs = 700 - 0 ∧
     ∃ pre, (sendAIResponse c7TtsEnv ("hello") initialSessionState).2.2 =
       pre ++ [Effect.wait ((c7Result.audioMs - c7Result.streamingDurationMs) + playbackBuffer),
               Effect.setSpeaking false]) :=
  ⟨by decide, by decide, rfl, rfl, rfl,
    sendAIResponse_playback_wait ("hi") ("hello") 0 40000 700
      [(200, TtsMsg.chunk 40000)] c7TtsEnv initialSessionState c7Result
      (by decide) (by decide) rfl rfl rfl⟩

/-! ### C4: the two-call action pattern -/

theorem llmRequestsOf_append (xs ys : List Effect) :
    llmRequestsOf (xs ++ ys) = llmRequestsOf xs ++ llmRequestsOf ys := by
  simp [llmRequestsOf]

theorem sendAIResponse_no_llm (env : TtsEnv) (text : String) (s : SessionState) :
    llmRequestsOf (sendAIResponse env text s).2.2 = [] := by
  by_cases hnr : needsRefresh env.lastActivity env.now
  · cases hr : env.reconnectResult with
    | error e =>
      simp [sendAIResponse, sendAIResponseBody, sendAIResponseCore, hnr, hr, llmRequestsOf]
    | ok u =>
      cases ho : env.ttsOutcome with
      | error e =>
        simp [sendAIResponse, sendAIResponseBody, sendAIResponseCore, hnr, hr, ho,
          llmRequestsOf]
      | ok r =>
        simp [sendAIResponse, sendAIResponseBody, sendAIResponseCore, hnr, hr, ho,
          llmRequestsOf]
  · cases ho : env.ttsOutcome with
    | error e =>
      simp [sendAIResponse, sendAIResponseBody, sendAIResponseCore, hnr, ho, llmRequestsOf]
    | ok r =>
      simp [sendAIResponse, sendAIResponseBody, sendAIResponseCore, hnr, ho, llmRequestsOf]

theorem turnErrorFallback_no_llm (env : TurnEnv) (s : SessionState) :
    llmRequestsOf (turnErrorFallback env s).2 = [] := by
  show llmRequestsOf (sendAIResponse env.fallbackTts errorResponseText _).2.2 = []
  exact sendAIResponse_no_llm env.fallbackTts errorResponseText _

theorem executeToolCall_no_llm (tc : ToolCall) (cd : List (String × JValue)) :
    llmRequestsOf (executeToolCall tc cd).2.2 = [] := by
  unfold executeToolCall
  by_cases h1 : tc.name = "update_service_request"
  · simp [h1, llmRequestsOf]
  · by_cases h2 : tc.name = "end_call_with_summary"
    · simp [h1, h2, llmRequestsOf]
    · simp [h1, h2, llmRequestsOf]

theorem execToolLoop_no_llm (tcs : List ToolCall) :
    ∀ s : SessionState, llmRequestsOf (execToolLoop tcs s).2 = [] := by
  induction tcs with
  | nil => intro s; rfl
  | cons tc rest ih =>
    intro s
    show llmRequestsOf ((executeToolCall tc s.collectedData).2.2 ++ _) = []
    rw [llmRequestsOf_append, executeToolCall_no_llm, ih]
    rfl

theorem execToolLoop_messages (tcs : List ToolCall) :
    ∀ s : SessionState,
      (execToolLoop tcs s).1.messages = s.messages ++ toolResultMsgs tcs s.collectedData := by
  induction tcs with
  | nil => intro s; simp [execToolLoop, toolResultMsgs]
  | cons tc rest ih =>
    intro s
    show (execToolLoop rest _).1.messages = _
    rw [ih]
    simp [toolResultMsgs, List.append_assoc]

theorem toolResultMsgs_length (tcs : List ToolCall) :
    ∀ cd : List (String × JValue), (toolResultMsgs tcs cd).length = tcs.length := by
  induction tcs with
  | nil => intro cd; rfl
  | cons tc rest ih => intro cd; simp [toolResultMsgs, ih]

theorem speakReply_no_llm (env : TurnEnv) (c : String) (s : SessionState) :
    llmRequestsOf (speakReply env c s).2 = [] := by
  unfold speakReply
  split
  next u s2 effs heq =>
    have h := sendAIResponse_no_llm env.mainTts (stripFunctionCalls c)
      { s with messages := s.messages ++ [ChatMsg.assistant (stripFunctionCalls c)] }
    rw [heq] at h
    exact h
  next e s2 effs heq =>
    have h := sendAIResponse_no_llm env.mainTts (stripFunctionCalls c)
      { s with messages := s.messages ++ [ChatMsg.assistant (stripFunctionCalls c)] }
    rw [heq] at h
    show llmRequestsOf (effs ++ (turnErrorFallback env s2).2) = []
    rw [llmRequestsOf_append, turnErrorFallback_no_llm]
    simpa using h

/-- C4: whenever the initial reasoning call returns requested structured
actions, the handler appends exactly one tool-result entry per requested
action (after the assistant tool-call entry) to the model-facing message
list, and the only further reasoning request of the turn is the single
follow-up call, issued with exactly those messages and with no tools
offered. -/
theorem onTranscript_two_call_pattern (env : TurnEnv) (transcriptText : String)
    (s : SessionState) (pr : ProviderResult)
    (hs : s.isSpeaking = false) (hprov : env.provider = "auto")
    (hgroq : env.chatEnv.groqResult = Except.ok pr) (htc : pr.toolCalls ≠ []) :
    llmRequestsOf (onTranscript env transcriptText s).2 =
      [RouterEffect.groqCall
          (s.messages ++ [ChatMsg.user (correctPlumbingTerms transcriptText)])
          (if env.isDemo then none else some TOOLS),
       RouterEffect.groqCall
          ((s.messages ++ [ChatMsg.user (correctPlumbingTerms transcriptText)]) ++
            ChatMsg.assistantToolCalls pr.toolCalls ::
              toolResultMsgs pr.toolCalls s.collectedData)
          none] ∧
    (toolResultMsgs pr.toolCalls s.collectedData).length = pr.toolCalls.length := by
  refine ⟨?_, toolResultMsgs_length pr.toolCalls s.collectedData⟩
  have hempty : pr.toolCalls.isEmpty = false := by
    cases h : pr.toolCalls with
    | nil => exact absurd h htc
    | cons a l => rfl
  unfold onTranscript
  rw [hprov]
  simp only [hs, Bool.false_eq_true, if_false, ite_false]
  have hchat : ∀ (m : List ChatMsg) (tg : Option (List String)),
      routerChat ("auto") env.chatEnv m tg =
        (Except.ok
          { content := pr.content, toolCalls := pr.toolCalls, provider := "groq",
            latency := env.chatEnv.groqLatency, cost := groqCalculateCost pr.usage,
            tokens := pr.usage.totalTokens, isFallback := false },
         [RouterEffect.groqCall m tg,
          RouterEffect.track ("groq") (groqCalculateCost pr.usage) env.chatEnv.groqLatency
            false]) := by
    intro m tg
    simp [routerChat, callGroq, hgroq]
  rw [hchat]
  simp only [hempty, Bool.false_eq_true, if_false, ite_false]
  cases hfu : env.followEnv.groqResult with
  | error fe =>
    simp only [chatWithToolResults, hfu]
    rw [execToolLoop_messages]
    simp only [llmRequestsOf_append, execToolLoop_no_llm, turnErrorFallback_no_llm,
      speakReply_no_llm]
    simp [llmRequestsOf, List.append_assoc]
  | ok fr =>
    simp only [chatWithToolResults, hfu]
    rw [execToolLoop_messages]
    cases hcon : fr.content with
    | none =>
      simp only [llmRequestsOf_append, execToolLoop_no_llm]
      simp [llmRequestsOf, List.append_assoc]
    | some c =>
      cases hbe : (c == "") with
      | true =>
        simp only [hbe, if_true, ite_true]
        simp only [llmRequestsOf_append, execToolLoop_no_llm]
        simp [llmRequestsOf, List.append_assoc]
      | false =>
        simp only [hbe, Bool.false_eq_true, if_false, ite_false]
        simp only [llmRequestsOf_append, execToolLoop_no_llm, speakReply_no_llm]
        simp [llmRequestsOf, List.append_assoc]

theorem onTranscript_two_call_pattern_witness :
    initialSessionState.isSpeaking = false ∧
    toolTurnEnv.provider = "auto" ∧
    toolTurnEnv.chatEnv.groqResult = Except.ok toolCallProviderResult ∧
    toolCallProviderResult.toolCalls ≠ [] ∧
    (llmRequestsOf (onTranscript toolTurnEnv ("my toilet is quogged") initialSessionState).2 =
      [RouterEffect.groqCall
          (initialSessionState.messages ++
            [ChatMsg.user (correctPlumbingTerms ("my toilet is quogged"))])
          (if toolTurnEnv.isDemo then none else some TOOLS),
       RouterEffect.groqCall
          ((initialSessionState.messages ++
              [ChatMsg.user (correctPlumbingTerms ("my toilet is quogged"))]) ++
            ChatMsg.assistantToolCalls toolCallProviderResult.toolCalls ::
              toolResultMsgs toolCallProviderResult.toolCalls
                initialSessionState.collectedData)
          none] ∧
     (toolResultMsgs toolCallProviderResult.toolCalls
         initialSessionState.collectedData).length
       = toolCallProviderResult.toolCalls.length) :=
  ⟨rfl, rfl, rfl, by decide,
    onTranscript_two_call_pattern toolTurnEnv ("my toilet is quogged") initialSessionState
      toolCallProviderResult rfl rfl rfl (by decide)⟩

/-! ### C3: behaviour on a not-configured callee number -/

/-- C3 (what the code actually does at the failing input): when the
dashboard lookup answers 404 (not configured), `getConfigFromDashboard`
returns the error-marker configuration instead of throwing, the handler
never examines the marker, and initialization proceeds as if configured:
the transport WebSocket is never closed, the system-role entry is created
(from the default template) and the greeting is produced and spoken — for
any template texts. The call does not abort. -/
theorem initCall_not_configured_proceeds (clientTemplate demoTemplate : String) :
    Effect.closeWs ∉ (initCall clientTemplate demoTemplate ("+15551230000") ("+15557654321")
        c3Env initialSessionState).2 ∧
    (initCall clientTemplate demoTemplate ("+15551230000") ("+15557654321")
        c3Env initialSessionState).1.messages.length = 2 ∧
    (∃ p, (initCall clientTemplate demoTemplate ("+15551230000") ("+15557654321")
        c3Env initialSessionState).1.messages.head? = some (ChatMsg.system p)) ∧
    (initCall clientTemplate demoTemplate ("+15551230000") ("+15557654321")
        c3Env initialSessionState).1.transcript.length = 2 := by
  refine ⟨?_, ?_, ?_, ?_⟩ <;>
    simp [initCall, c3Env, c3GreetingEnv, getConfigFromDashboard, errorConfig, routerChat,
      callGroq, sampleTtsEnv, sendAIResponse, sendAIResponseBody, sendAIResponseCore,
      needsRefresh, sampleUsage, initialSessionState]

end VoiceAgent
